import Mathlib

/-! Voice microphone widget: framework component and custom element.

A shallow embedding of `src/mic-component/mic-button.js` (the custom element
`VoiceMic`) and `src/mic-component/VoiceMicReact.jsx` (the framework component
`VoiceMicReact`).

The browser is modelled as explicit state: outstanding `getUserMedia` requests,
capture sessions (a media stream together with the `MediaRecorder` built on it),
outstanding `fetch` calls and a log of the platform calls made, in program order.
Every asynchronous function of the source is split at its `await`s: the part that
runs synchronously, and one continuation per way the awaited promise can settle.
The event loop is the function `step`, which delivers one event to the widget.
For the framework component the state setters are taken to be committed (and the
component re-rendered) before the next event is delivered, and the props are the ones
the component was mounted with. A callback prop is a function of the host and may
throw; what a function of the component leaves behind when it throws is kept. The
element's `dispatchEvent` does not rethrow what a listener throws.
-/

namespace VoiceAgent

/-! ## Platform data -/

/-- Binary object: its bytes and its media type. -/
structure Blob where
  content : List Nat
  type : String
deriving DecidableEq, Repr

/-- JavaScript `new Blob(parts, { type })`: the parts' bytes, concatenated in order. -/
def Blob.new (parts : List Blob) (type : String) : Blob :=
  { content := (parts.map Blob.content).flatten, type := type }

/-- One entry of a `FormData`, as appended by `append(name, value, filename)`. -/
structure FormEntry where
  name : String
  value : Blob
  filename : String
deriving DecidableEq, Repr

/-- An HTTP request as handed to `fetch`. -/
structure Request where
  url : String
  method : String
  body : List FormEntry
deriving DecidableEq, Repr

/-- The decoded JSON body of a successful backend reply. -/
structure BackendResult where
  transcript : String
  response_text : String
  audio_url : String
deriving DecidableEq, Repr

/-- How an issued `fetch` can settle: the promise rejects with an error carrying
`message`, or a response arrives with its `ok` flag and what `json()` on it yields
(an error message when the body does not parse). -/
inductive FetchOutcome where
  | rejected (message : String)
  | response (ok : Bool) (json : Except String BackendResult)

/-- State of a `MediaRecorder`: `stopping` is the time between the call of `stop()`
and the delivery of the `stop` event. -/
inductive RecState where
  | inactive
  | recording
  | stopping
deriving DecidableEq, Repr

/-- A capture session: the stream obtained from `getUserMedia` (are its tracks
live?) and the recorder constructed on it. -/
structure Session where
  live : Bool
  state : RecState
deriving DecidableEq, Repr

/-- An issued `fetch` and whether its promise is still unsettled. -/
structure Fetch where
  request : Request
  pending : Bool
deriving DecidableEq, Repr

/-- Platform calls with an effect outside the widget, logged in program order. -/
inductive Effect where
  | acquire (k : Nat)
  | assemble (b : Blob)
  | post (r : Request)
  | release (k : Nat)
deriving DecidableEq, Repr

/-- The part of the browser the widget talks to. -/
structure Browser where
  pendingMic : Nat
  sessions : List Session
  fetches : List Fetch
  log : List Effect
deriving DecidableEq, Repr

/-- Apply `f` to the element at position `n`, if there is one. -/
def updateAt {α : Type} (f : α → α) : Nat → List α → List α
  | _, [] => []
  | 0, x :: xs => f x :: xs
  | n + 1, x :: xs => x :: updateAt f n xs

/-- A browser in which nothing has happened yet. -/
def Browser.fresh : Browser :=
  { pendingMic := 0, sessions := [], fetches := [], log := [] }

/-- The call `navigator.mediaDevices.getUserMedia({ audio: true })`: one more
request awaits the user's decision. -/
def Browser.getUserMedia (b : Browser) : Browser :=
  { b with pendingMic := b.pendingMic + 1 }

/-- One outstanding `getUserMedia` promise settles. -/
def Browser.settleMic (b : Browser) : Browser :=
  { b with pendingMic := b.pendingMic - 1 }

/-- The stream a granted request resolves with, and `new MediaRecorder(stream)` on
it: session number `b.sessions.length`, tracks live, recorder inactive. -/
def Browser.newRecorder (b : Browser) : Browser :=
  { b with sessions := b.sessions ++ [{ live := true, state := .inactive }],
           log := b.log ++ [.acquire b.sessions.length] }

/-- The call `mediaRecorder.start()`. -/
def Browser.recorderStart (b : Browser) (k : Nat) : Browser :=
  { b with sessions := updateAt (fun s => { s with state := .recording }) k b.sessions }

/-- The call `mediaRecorder.stop()`: a recording recorder is stopped and its `stop`
event is queued; on any other recorder nothing happens. -/
def Browser.recorderStop (b : Browser) (k : Nat) : Browser :=
  let stopIt : Session → Session :=
    fun s => if s.state = .recording then { s with state := .stopping } else s
  { b with sessions := updateAt stopIt k b.sessions }

/-- The `stop` event of recorder `k` leaves the queue. -/
def Browser.stopDelivered (b : Browser) (k : Nat) : Browser :=
  { b with sessions := updateAt (fun s => { s with state := .inactive }) k b.sessions }

/-- The statement `stream.getTracks().forEach(track => track.stop())`. -/
def Browser.stopTracks (b : Browser) (k : Nat) : Browser :=
  { b with sessions := updateAt (fun s => { s with live := false }) k b.sessions,
           log := b.log ++ [.release k] }

/-- The call `fetch(url, { method, body })`: the request leaves the page. -/
def Browser.fetch (b : Browser) (r : Request) : Browser :=
  { b with fetches := b.fetches ++ [{ request := r, pending := true }],
           log := b.log ++ [.post r] }

/-- The promise of fetch number `i` settles. -/
def Browser.settleFetch (b : Browser) (i : Nat) : Browser :=
  { b with fetches := updateAt (fun f => { f with pending := false }) i b.fetches }

/-- The construction `new Blob(chunks, { type })`, logged. -/
def Browser.assemble (b : Browser) (blob : Blob) : Browser :=
  { b with log := b.log ++ [.assemble blob] }

/-- Number of acquired capture streams whose tracks have not been stopped. -/
def Browser.liveStreams (b : Browser) : Nat :=
  b.sessions.countP (fun s => s.live)

/-- The requests issued so far, oldest first. -/
def Browser.requests (b : Browser) : List Request :=
  b.fetches.map Fetch.request

/-- What the event loop can deliver to a widget. -/
inductive Event where
  | click
  | micGranted
  | micDenied
  | dataavailable (k : Nat) (data : Blob)
  | stop (k : Nat)
  | fetchSettled (i : Nat) (outcome : FetchOutcome)

/-- JavaScript `value || fallback` on a nullable string: `null` and the empty string
are falsy. -/
def orDefault (value : Option String) (fallback : String) : String :=
  match value with
  | some s => if s = "" then fallback else s
  | none => fallback

/-- The three conceptual states of a widget. -/
inductive Phase where
  | idle
  | recording
  | processing
deriving DecidableEq, Repr

/-! ## The custom element (`mic-button.js`) -/

/-- A `div` of the shadow tree: class, text and `style.display`. -/
structure Region where
  className : String
  textContent : String
  display : String
deriving DecidableEq, Repr

/-- The `audio` element used as playback sink. -/
structure AudioElement where
  src : String
  plays : Nat
deriving DecidableEq, Repr

/-- A dispatched `CustomEvent`. -/
structure CustomEvent where
  type : String
  detail : String
deriving DecidableEq, Repr

/-- The element's fields, its shadow tree, the events it has dispatched, the `api`
attribute the host page currently has on the element, and the browser around it. -/
structure VoiceMic where
  apiAttribute : Option String
  isRecording : Bool
  mediaRecorder : Option Nat
  audioChunks : List Blob
  apiUrl : String
  micBtnClass : String
  statusClass : String
  statusText : String
  transcriptEl : Region
  responseEl : Region
  audioPlayer : AudioElement
  dispatched : List CustomEvent
  browser : Browser
deriving DecidableEq, Repr

namespace VoiceMic

/-- The constructor followed by `render()`. `api` is what `getAttribute('api')`
returns while the constructor runs: the attribute's value when an element that is
already in the document with its attributes is upgraded, `null` when the element is
constructed first and receives its attributes afterwards (`document.createElement`,
or markup parsed after the class has been registered). -/
def create (api : Option String) (b : Browser) : VoiceMic :=
  { apiAttribute := api
    isRecording := false
    mediaRecorder := none
    audioChunks := []
    apiUrl := orDefault api "http://localhost:9000"
    micBtnClass := "mic-button"
    statusClass := "status"
    statusText := ""
    transcriptEl := { className := "", textContent := "", display := "none" }
    responseEl := { className := "", textContent := "", display := "none" }
    audioPlayer := { src := "", plays := 0 }
    dispatched := []
    browser := b }

def updateUI (w : VoiceMic) (state statusText : String) : VoiceMic :=
  { w with micBtnClass := "mic-button " ++ (if state = "recording" then "recording" else "")
           statusClass := "status"
           statusText := statusText }

def handleError (w : VoiceMic) (message : String) : VoiceMic :=
  let w := w.updateUI "idle" ""
  { w with statusClass := "status error"
           statusText := "Error: " ++ message
           dispatched := w.dispatched ++ [CustomEvent.mk "error" message] }

def handleResponse (w : VoiceMic) (data : BackendResult) : VoiceMic :=
  let w := w.updateUI "idle" "Ready"
  let w := { w with transcriptEl :=
    { className := "transcript", textContent := "You: " ++ data.transcript, display := "block" } }
  let w := { w with responseEl :=
    { className := "response", textContent := "Assistant: " ++ data.response_text,
      display := "block" } }
  let w := { w with audioPlayer :=
    { src := w.apiUrl ++ data.audio_url, plays := w.audioPlayer.plays + 1 } }
  let w := { w with dispatched := w.dispatched ++ [CustomEvent.mk "transcript" data.transcript] }
  { w with dispatched := w.dispatched ++ [CustomEvent.mk "response" data.response_text] }

/-- The part of `sendAudio` up to its first `await`: the form is built and the
request is issued. -/
def sendAudio (w : VoiceMic) (audioBlob : Blob) : VoiceMic :=
  let formData : List FormEntry := [] ++ [FormEntry.mk "audio" audioBlob "recording.webm"]
  let request : Request := { url := w.apiUrl ++ "/voice/query", method := "POST", body := formData }
  { w with browser := w.browser.fetch request }

/-- The rest of the `try` block of `sendAudio` once the fetch has settled: the
value it reaches `handleResponse` with, or the message of the error it throws. -/
def sendAudioTry (outcome : FetchOutcome) : Except String BackendResult :=
  match outcome with
  | .rejected message => .error message
  | .response ok json =>
    if !ok then .error "API request failed"
    else match json with
      | .error message => .error message
      | .ok data => .ok data

/-- The continuation of `sendAudio` after `await fetch(...)`, with its `catch`.
The result is how the promise returned by `sendAudio` settles. -/
def sendAudioResume (w : VoiceMic) (outcome : FetchOutcome) : Except String VoiceMic :=
  match sendAudioTry outcome with
  | .ok data => .ok (w.handleResponse data)
  | .error message => .ok (w.handleError message)

/-- The handler installed as `ondataavailable`. -/
def ondataavailable (w : VoiceMic) (data : Blob) : VoiceMic :=
  { w with audioChunks := w.audioChunks ++ [data] }

/-- The handler installed as `onstop` by the `startRecording` call that obtained
stream `stream`. -/
def onstop (w : VoiceMic) (stream : Nat) : VoiceMic :=
  let audioBlob := Blob.new w.audioChunks "audio/webm"
  let w := { w with browser := w.browser.assemble audioBlob }
  let w := w.sendAudio audioBlob
  { w with browser := w.browser.stopTracks stream }

/-- The part of `startRecording` up to `await getUserMedia(...)`. -/
def startRecording (w : VoiceMic) : VoiceMic :=
  { w with browser := w.browser.getUserMedia }

/-- The continuation of `startRecording`: the `try` body when the request was
granted, the `catch` when it was not. -/
def startRecordingResume (w : VoiceMic) (granted : Bool) : VoiceMic :=
  if granted then
    let stream := w.browser.sessions.length
    let w := { w with browser := w.browser.newRecorder, mediaRecorder := some stream }
    let w := { w with audioChunks := [] }
    let w := { w with browser := w.browser.recorderStart stream }
    let w := { w with isRecording := true }
    w.updateUI "recording" "Recording..."
  else
    w.handleError "Microphone access denied"

def stopRecording (w : VoiceMic) : VoiceMic :=
  match w.mediaRecorder with
  | some k =>
    if w.isRecording then
      let w := { w with browser := w.browser.recorderStop k }
      let w := { w with isRecording := false }
      w.updateUI "processing" "Processing..."
    else w
  | none => w

/-- The click listener, up to the first `await`. -/
def toggleRecording (w : VoiceMic) : VoiceMic :=
  if w.isRecording then w.stopRecording else w.startRecording

/-- Delivery of one event. An event that the browser cannot produce in the current
state (no request outstanding, recorder not running, fetch already settled) changes
nothing. -/
def step (w : VoiceMic) : Event → VoiceMic
  | .click => w.toggleRecording
  | .micGranted =>
    if w.browser.pendingMic = 0 then w
    else startRecordingResume { w with browser := w.browser.settleMic } true
  | .micDenied =>
    if w.browser.pendingMic = 0 then w
    else startRecordingResume { w with browser := w.browser.settleMic } false
  | .dataavailable k data =>
    match w.browser.sessions[k]? with
    | some s => if s.state = .inactive then w else w.ondataavailable data
    | none => w
  | .stop k =>
    match w.browser.sessions[k]? with
    | some s =>
      if s.state = .stopping then
        onstop { w with browser := w.browser.stopDelivered k } k
      else w
    | none => w
  | .fetchSettled i outcome =>
    match w.browser.fetches[i]? with
    | some f =>
      if f.pending then
        match sendAudioResume { w with browser := w.browser.settleFetch i } outcome with
        | .ok w2 => w2
        | .error _ => { w with browser := w.browser.settleFetch i }
      else w
    | none => w

/-- Delivery of a sequence of events, first to last. -/
def run (w : VoiceMic) (es : List Event) : VoiceMic :=
  es.foldl step w

/-- The host calls `setAttribute(name, value)` on the element. The class declares
neither `observedAttributes` nor `attributeChangedCallback`, so no code of the element
runs: only the attribute changes. -/
def setAttribute (w : VoiceMic) (name value : String) : VoiceMic :=
  if name = "api" then { w with apiAttribute := some value } else w

/-- The conceptual state shown by the element. -/
def phase (w : VoiceMic) : Phase :=
  if w.isRecording then .recording
  else if w.statusText = "Processing..." then .processing
  else .idle

end VoiceMic

/-! ## The framework component (`VoiceMicReact.jsx`) -/

/-- An invocation of one of the three callback props. -/
inductive Callback where
  | onTranscript (text : String)
  | onResponse (text : String)
  | onError (message : String)
deriving DecidableEq, Repr

/-- The two functions the button's `onClick` can be bound to. -/
inductive ClickHandler where
  | startRecording
  | stopRecording
deriving DecidableEq, Repr

/-- What the component's `return (...)` produces: the button's handler and whether
it carries the recording style, the status line, and the three conditional lines
(`none` when the line is not rendered). -/
structure View where
  onClick : ClickHandler
  buttonRecording : Bool
  statusLine : String
  errorLine : Option String
  transcriptLine : Option String
  responseLine : Option String
deriving DecidableEq, Repr

/-- A callback prop as the component sees it: called with a text, it returns, or it
throws an error with the given message. -/
abbrev Handler := String → Option String

/-- The props a host passes: each of them may be left out. -/
structure Props where
  apiUrl : Option String := none
  onTranscript : Option Handler := none
  onResponse : Option Handler := none
  onError : Option Handler := none

/-- The default of the three callback props, `() => {}`. -/
def noop : Handler := fun _ => none

/-- The component's props after their defaults, its five state variables, its three
refs, the callback invocations made so far, and the browser around it. -/
structure VoiceMicReact where
  apiUrl : String
  onTranscript : Handler
  onResponse : Handler
  onError : Handler
  isRecording : Bool
  status : String
  transcript : String
  response : String
  error : String
  mediaRecorderRef : Option Nat
  audioChunksRef : List Blob
  audioPlayerRef : Option AudioElement
  calls : List Callback
  browser : Browser

/-- How a call of one of the component's functions ends: the state it leaves behind,
and the message of the error it throws, if it throws. -/
structure Completion where
  state : VoiceMicReact
  thrown : Option String

namespace VoiceMicReact

/-- The component after its first render has been committed, so that the ref of
the `audio` element is attached. The defaults of the destructured props apply to the
props that are not passed. -/
def mount (props : Props) (b : Browser) : VoiceMicReact :=
  { apiUrl := props.apiUrl.getD "http://localhost:9000"
    onTranscript := props.onTranscript.getD noop
    onResponse := props.onResponse.getD noop
    onError := props.onError.getD noop
    isRecording := false
    status := "Ready"
    transcript := ""
    response := ""
    error := ""
    mediaRecorderRef := none
    audioChunksRef := []
    audioPlayerRef := some { src := "", plays := 0 }
    calls := []
    browser := b }

/-- JSX `text && <div>label{text}</div>`: the empty string is falsy and renders
nothing. -/
def line (label text : String) : Option String :=
  if text = "" then none else some (label ++ text)

/-- The value returned by the component function for the current state. -/
def render (w : VoiceMicReact) : View :=
  { onClick := if w.isRecording then .stopRecording else .startRecording
    buttonRecording := w.isRecording
    statusLine := w.status
    errorLine := line "Error: " w.error
    transcriptLine := line "You: " w.transcript
    responseLine := line "Assistant: " w.response }

/-- The function `handleResponse`. When `onTranscript` throws, `onResponse` is not
reached. -/
def handleResponse (w : VoiceMicReact) (data : BackendResult) : Completion :=
  let w := { w with status := "Ready" }
  let w := { w with transcript := data.transcript }
  let w := { w with response := data.response_text }
  let w := match w.audioPlayerRef with
    | some player =>
      { w with audioPlayerRef := some { src := w.apiUrl ++ data.audio_url, plays := player.plays + 1 } }
    | none => w
  let w := { w with calls := w.calls ++ [Callback.onTranscript data.transcript] }
  match w.onTranscript data.transcript with
  | some message => { state := w, thrown := some message }
  | none =>
    let w := { w with calls := w.calls ++ [Callback.onResponse data.response_text] }
    { state := w, thrown := w.onResponse data.response_text }

def handleError (w : VoiceMicReact) (message : String) : Completion :=
  let w := { w with status := "Ready" }
  let w := { w with error := message }
  let w := { w with calls := w.calls ++ [Callback.onError message] }
  { state := w, thrown := w.onError message }

/-- The part of `sendAudio` up to its first `await`: the form is built and the
request is issued. -/
def sendAudio (w : VoiceMicReact) (audioBlob : Blob) : VoiceMicReact :=
  let formData : List FormEntry := [] ++ [FormEntry.mk "audio" audioBlob "recording.webm"]
  let request : Request := { url := w.apiUrl ++ "/voice/query", method := "POST", body := formData }
  { w with browser := w.browser.fetch request }

/-- The rest of the `try` block of `sendAudio` once the fetch has settled: the
value it reaches `handleResponse` with, or the message of the error it throws. -/
def sendAudioTry (outcome : FetchOutcome) : Except String BackendResult :=
  match outcome with
  | .rejected message => .error message
  | .response ok json =>
    if !ok then .error "API request failed"
    else match json with
      | .error message => .error message
      | .ok data => .ok data

/-- The continuation of `sendAudio` after `await fetch(...)`, with its `catch`:
`handleResponse` runs inside the `try`, so an error thrown by a callback it calls is
caught as well; an error thrown inside the `catch` (by `onError`) is not. The result
says how the promise returned by `sendAudio` settles. -/
def sendAudioResume (w : VoiceMicReact) (outcome : FetchOutcome) : Completion :=
  match sendAudioTry outcome with
  | .ok data =>
    match (w.handleResponse data).thrown with
    | none => w.handleResponse data
    | some message => (w.handleResponse data).state.handleError message
  | .error message => w.handleError message

/-- The handler installed as `ondataavailable`. -/
def ondataavailable (w : VoiceMicReact) (data : Blob) : VoiceMicReact :=
  { w with audioChunksRef := w.audioChunksRef ++ [data] }

/-- The handler installed as `onstop` by the `startRecording` call that obtained
stream `stream`. -/
def onstop (w : VoiceMicReact) (stream : Nat) : VoiceMicReact :=
  let audioBlob := Blob.new w.audioChunksRef "audio/webm"
  let w := { w with browser := w.browser.assemble audioBlob }
  let w := w.sendAudio audioBlob
  { w with browser := w.browser.stopTracks stream }

/-- The part of `startRecording` up to `await getUserMedia(...)`. -/
def startRecording (w : VoiceMicReact) : VoiceMicReact :=
  { w with browser := w.browser.getUserMedia }

/-- The continuation of `startRecording`: the `try` body when the request was
granted, the `catch` when it was not. -/
def startRecordingResume (w : VoiceMicReact) (granted : Bool) : Completion :=
  if granted then
    let stream := w.browser.sessions.length
    let w := { w with browser := w.browser.newRecorder, mediaRecorderRef := some stream }
    let w := { w with audioChunksRef := [] }
    let w := { w with browser := w.browser.recorderStart stream }
    let w := { w with isRecording := true }
    let w := { w with status := "Recording..." }
    { state := { w with error := "" }, thrown := none }
  else
    w.handleError "Microphone access denied"

def stopRecording (w : VoiceMicReact) : VoiceMicReact :=
  match w.mediaRecorderRef with
  | some k =>
    if w.isRecording then
      let w := { w with browser := w.browser.recorderStop k }
      let w := { w with isRecording := false }
      { w with status := "Processing..." }
    else w
  | none => w

/-- Delivery of one event. A click runs the handler the last render bound to the
button. An event that the browser cannot produce in the current state (no request
outstanding, recorder not running, fetch already settled) changes nothing. Nobody
awaits the promises of `startRecording` and `sendAudio`: when one of them rejects,
the state it left behind stays. -/
def step (w : VoiceMicReact) : Event → VoiceMicReact
  | .click =>
    match w.render.onClick with
    | .stopRecording => w.stopRecording
    | .startRecording => w.startRecording
  | .micGranted =>
    if w.browser.pendingMic = 0 then w
    else (startRecordingResume { w with browser := w.browser.settleMic } true).state
  | .micDenied =>
    if w.browser.pendingMic = 0 then w
    else (startRecordingResume { w with browser := w.browser.settleMic } false).state
  | .dataavailable k data =>
    match w.browser.sessions[k]? with
    | some s => if s.state = .inactive then w else w.ondataavailable data
    | none => w
  | .stop k =>
    match w.browser.sessions[k]? with
    | some s =>
      if s.state = .stopping then
        onstop { w with browser := w.browser.stopDelivered k } k
      else w
    | none => w
  | .fetchSettled i outcome =>
    match w.browser.fetches[i]? with
    | some f =>
      if f.pending then
        (sendAudioResume { w with browser := w.browser.settleFetch i } outcome).state
      else w
    | none => w

/-- Delivery of a sequence of events, first to last. -/
def run (w : VoiceMicReact) (es : List Event) : VoiceMicReact :=
  es.foldl step w

/-- The conceptual state shown by the component. -/
def phase (w : VoiceMicReact) : Phase :=
  if w.isRecording then .recording
  else if w.status = "Processing..." then .processing
  else .idle

end VoiceMicReact

/-! ## Auxiliary definitions for the statements -/

/-- A component that has gone through one recording and awaits the backend's answer
to request 0. -/
def demoReact : VoiceMicReact :=
  (VoiceMicReact.mount {} Browser.fresh).run
    [.click, .micGranted, .dataavailable 0 ⟨[1, 2], "audio/webm"⟩, .click, .stop 0]

/-- An element that has gone through one recording and awaits the backend's answer
to request 0. -/
def demoElement : VoiceMic :=
  (VoiceMic.create none Browser.fresh).run
    [.click, .micGranted, .dataavailable 0 ⟨[1, 2], "audio/webm"⟩, .click, .stop 0]

/-- The request both demo widgets have issued. -/
def demoFetch : Fetch :=
  { request :=
      { url := "http://localhost:9000/voice/query", method := "POST",
        body := [FormEntry.mk "audio" ⟨[1, 2], "audio/webm"⟩ "recording.webm"] },
    pending := true }

/-- The events of one capture session on a widget that is not recording: the click
that starts it, the grant, fragments, the click that stops it, the fragments still
delivered before the `stop` event, and the `stop` event. -/
def sessionEvents (k : Nat) (before after : List Blob) : List Event :=
  [.click, .micGranted] ++ before.map (Event.dataavailable k) ++ [.click]
    ++ after.map (Event.dataavailable k) ++ [.stop k]

/-- The events that can reach `handleResponse`: a fetch settles with a success status
and a body that parses. -/
def Event.isSuccess : Event → Bool
  | .fetchSettled _ (.response true (.ok _)) => true
  | _ => false

/-- The custom event that corresponds to a callback invocation. -/
def Callback.toEvent : Callback → CustomEvent
  | .onTranscript text => CustomEvent.mk "transcript" text
  | .onResponse text => CustomEvent.mk "response" text
  | .onError message => CustomEvent.mk "error" message

/-- What the embedding context and the backend can tell about a widget. -/
structure Observation where
  isRecording : Bool
  requests : List Request
  notifications : List CustomEvent
deriving DecidableEq, Repr

def VoiceMicReact.observe (w : VoiceMicReact) : Observation :=
  { isRecording := w.isRecording
    requests := w.browser.requests
    notifications := w.calls.map Callback.toEvent }

def VoiceMic.observe (w : VoiceMic) : Observation :=
  { isRecording := w.isRecording
    requests := w.browser.requests
    notifications := w.dispatched }

/-- What a host does with an element: it lets an event reach it, or it sets one of
its attributes. -/
inductive HostAction where
  | event (ev : Event)
  | setAttribute (name value : String)

def VoiceMic.act (w : VoiceMic) : HostAction → VoiceMic
  | .event ev => w.step ev
  | .setAttribute name value => w.setAttribute name value

/-- A sequence of host actions, first to last. -/
def VoiceMic.runHost (w : VoiceMic) (acts : List HostAction) : VoiceMic :=
  acts.foldl VoiceMic.act w

/-- The events among a sequence of host actions, in order. -/
def HostAction.events : List HostAction → List Event
  | [] => []
  | .event ev :: acts => ev :: HostAction.events acts
  | .setAttribute _ _ :: acts => HostAction.events acts

/-- None of the callbacks passed ever throws. -/
def Props.returnNormally (p : Props) : Prop :=
  (∀ f, p.onTranscript = some f → ∀ text, f text = none)
  ∧ (∀ f, p.onResponse = some f → ∀ text, f text = none)
  ∧ (∀ f, p.onError = some f → ∀ text, f text = none)

/-- The two widgets agree on everything their engines read. -/
def Sim (r : VoiceMicReact) (e : VoiceMic) : Prop :=
  r.isRecording = e.isRecording ∧ r.mediaRecorderRef = e.mediaRecorder
  ∧ r.audioChunksRef = e.audioChunks ∧ r.apiUrl = e.apiUrl ∧ r.browser = e.browser
  ∧ r.phase = e.phase

/-- The two widgets agree on what their engines read and on what they have emitted,
and the component's callbacks never throw. -/
def SimOut (r : VoiceMicReact) (e : VoiceMic) : Prop :=
  Sim r e ∧ r.calls.map Callback.toEvent = e.dispatched
  ∧ (∀ text, r.onTranscript text = none) ∧ (∀ text, r.onResponse text = none)
  ∧ (∀ text, r.onError text = none)

/-- An event that does not disturb capture session `k` between its grant and its
`stop` event: it is not the grant of another session (which empties the shared
buffer), not a fragment of another recorder, and not the `stop` event of `k` itself. -/
def Event.undisturbing (k : Nat) : Event → Bool
  | .micGranted => false
  | .dataavailable j _ => decide (j = k)
  | .stop j => decide (j ≠ k)
  | _ => true

/-- The fragments a sequence of events delivers to recorder `k`, in arrival order. -/
def fragmentsOf (k : Nat) : List Event → List Blob
  | [] => []
  | .dataavailable j data :: es => if j = k then data :: fragmentsOf k es else fragmentsOf k es
  | _ :: es => fragmentsOf k es

/-- The successor of a state in the cycle Idle, Recording, Processing, Idle. -/
def Phase.next : Phase → Phase
  | .idle => .recording
  | .recording => .processing
  | .processing => .idle

/-- From `p` to `q` the widget stays where it is or moves one state along the cycle. -/
def cycleStep (p q : Phase) : Bool :=
  decide (q = p) || decide (q = p.next)

def Event.isClick : Event → Bool
  | .click => true
  | _ => false

/-- A click made while the widget records (it stops the recording), or while it is
Idle and no microphone request is outstanding (it starts one). -/
def VoiceMic.clickAllowed (w : VoiceMic) : Bool :=
  w.isRecording || (decide (w.phase = Phase.idle) && decide (w.browser.pendingMic = 0))

/-- Every click of the sequence is an allowed one in the state it arrives in. -/
def VoiceMic.disciplined : VoiceMic → List Event → Bool
  | _, [] => true
  | w, ev :: es => (!ev.isClick || w.clickAllowed) && VoiceMic.disciplined (w.step ev) es

/-- Along the sequence every event keeps the state or moves it one step along the
cycle, and after every event at most one capture stream is unreleased. -/
def VoiceMic.alternates : VoiceMic → List Event → Bool
  | _, [] => true
  | w, ev :: es =>
    cycleStep w.phase (w.step ev).phase && decide ((w.step ev).browser.liveStreams ≤ 1)
      && VoiceMic.alternates (w.step ev) es

def VoiceMicReact.clickAllowed (w : VoiceMicReact) : Bool :=
  w.isRecording || (decide (w.phase = Phase.idle) && decide (w.browser.pendingMic = 0))

def VoiceMicReact.disciplined : VoiceMicReact → List Event → Bool
  | _, [] => true
  | w, ev :: es => (!ev.isClick || w.clickAllowed) && VoiceMicReact.disciplined (w.step ev) es

def VoiceMicReact.alternates : VoiceMicReact → List Event → Bool
  | _, [] => true
  | w, ev :: es =>
    cycleStep w.phase (w.step ev).phase && decide ((w.step ev).browser.liveStreams ≤ 1)
      && VoiceMicReact.alternates (w.step ev) es

/-- No session of the list holds a live stream or a running recorder. -/
def AllDead (l : List Session) : Prop :=
  ∀ s ∈ l, s = { live := false, state := .inactive }

/-- No fetch of the list is unanswered. -/
def AllSettled (l : List Fetch) : Prop :=
  ∀ f ∈ l, f.pending = false

/-- The four situations a widget driven by allowed clicks can be in: idle with
nothing outstanding but at most one microphone request; recording on the newest
session; stopped with the `stop` event of the newest session queued; waiting for the
answer to the newest request. -/
def EngineInv (isRecording : Bool) (phase : Phase) (mediaRecorder : Option Nat)
    (b : Browser) : Prop :=
  (isRecording = false ∧ phase = Phase.idle ∧ b.pendingMic ≤ 1 ∧ AllDead b.sessions
      ∧ AllSettled b.fetches)
  ∨ (isRecording = true ∧ phase = Phase.recording ∧ b.pendingMic = 0 ∧ AllSettled b.fetches
      ∧ ∃ old, b.sessions = old ++ [{ live := true, state := .recording }] ∧ AllDead old
          ∧ mediaRecorder = some old.length)
  ∨ (isRecording = false ∧ phase = Phase.processing ∧ b.pendingMic = 0 ∧ AllSettled b.fetches
      ∧ ∃ old, b.sessions = old ++ [{ live := true, state := .stopping }] ∧ AllDead old)
  ∨ (isRecording = false ∧ phase = Phase.processing ∧ b.pendingMic = 0 ∧ AllDead b.sessions
      ∧ ∃ oldf req, b.fetches = oldf ++ [{ request := req, pending := true }]
          ∧ AllSettled oldf)

def VoiceMic.Inv (w : VoiceMic) : Prop :=
  EngineInv w.isRecording w.phase w.mediaRecorder w.browser

/-- A recording cycle has ended on the component, a click has asked for the
microphone again, and the buffer still holds the old fragment. -/
def demoReactAsking : VoiceMicReact :=
  demoReact.run [.fetchSettled 0 (.rejected "network down"), .click]

/-- A recording cycle has ended on the element, a click has asked for the microphone
again, and the buffer still holds the old fragment. -/
def demoElementAsking : VoiceMic :=
  demoElement.run [.fetchSettled 0 (.rejected "network down"), .click]

/-- Events of a second session: two fragments, an answer nobody waits for, the click
that stops the recording, and a last fragment. -/
def demoSessionEvents : List Event :=
  [.dataavailable 1 ⟨[3], "audio/webm"⟩, .dataavailable 1 ⟨[4, 5], "audio/webm"⟩,
   .fetchSettled 7 (.rejected "late"), .click, .dataavailable 1 ⟨[6], "audio/webm"⟩]

/-- Props with a logging `onError`, as the demonstration host passes them. -/
def demoProps : Props :=
  { apiUrl := some "http://localhost:9000", onError := some (fun _ => none) }

/-- A recording cycle whose request fails, with an attribute change in between. -/
def demoActions : List HostAction :=
  [.event .click, .event .micGranted, .setAttribute "api" "http://elsewhere", .event .click,
   .event (.stop 0), .event (.fetchSettled 0 (.rejected "network down"))]

/-! # Theorems -/

/-! ## Lists -/

theorem getElem?_updateAt_self {α : Type} (f : α → α) (n : Nat) (l : List α) :
    (updateAt f n l)[n]? = l[n]?.map f := by
  induction l generalizing n with
  | nil => simp [updateAt]
  | cons x xs ih => cases n <;> simp [updateAt, ih]

theorem getElem?_updateAt_ne {α : Type} (f : α → α) (n j : Nat) (l : List α) (h : j ≠ n) :
    (updateAt f n l)[j]? = l[j]? := by
  induction l generalizing n j with
  | nil => simp [updateAt]
  | cons x xs ih =>
    cases n with
    | zero =>
      cases j with
      | zero => exact absurd rfl h
      | succ j => simp [updateAt]
    | succ n =>
      cases j with
      | zero => simp [updateAt]
      | succ j => simpa [updateAt] using ih n j (by omega)

theorem updateAt_concat {α : Type} (f : α → α) (l : List α) (x : α) :
    updateAt f l.length (l ++ [x]) = l ++ [f x] := by
  induction l with
  | nil => simp [updateAt]
  | cons y ys ih => simp [updateAt, ih]

/-! ## Transport failures -/

/-- C7: in both packagings, when an outstanding request is answered with a non-success
status, whatever `json()` on the body would have given, the error surfaced (callback
`onError` / event `error`, and the text shown) is exactly "API request failed", the
stored and displayed transcript and response are unchanged, no transcript or response
notification is made, and the playback element is untouched. -/
theorem nonSuccessStatus_surfaces_fixed_message
    (json : Except String BackendResult) (i : Nat) (fr fe : Fetch)
    (r : VoiceMicReact) (e : VoiceMic)
    (hr : r.browser.fetches[i]? = some fr) (hrp : fr.pending = true)
    (he : e.browser.fetches[i]? = some fe) (hep : fe.pending = true) :
    ((r.step (.fetchSettled i (.response false json))).calls
        = r.calls ++ [Callback.onError "API request failed"]
      ∧ (r.step (.fetchSettled i (.response false json))).render.errorLine
        = some "Error: API request failed"
      ∧ (r.step (.fetchSettled i (.response false json))).transcript = r.transcript
      ∧ (r.step (.fetchSettled i (.response false json))).response = r.response
      ∧ (r.step (.fetchSettled i (.response false json))).render.transcriptLine
        = r.render.transcriptLine
      ∧ (r.step (.fetchSettled i (.response false json))).render.responseLine
        = r.render.responseLine
      ∧ (r.step (.fetchSettled i (.response false json))).audioPlayerRef = r.audioPlayerRef)
    ∧ ((e.step (.fetchSettled i (.response false json))).dispatched
        = e.dispatched ++ [CustomEvent.mk "error" "API request failed"]
      ∧ (e.step (.fetchSettled i (.response false json))).statusText
        = "Error: API request failed"
      ∧ (e.step (.fetchSettled i (.response false json))).transcriptEl = e.transcriptEl
      ∧ (e.step (.fetchSettled i (.response false json))).responseEl = e.responseEl
      ∧ (e.step (.fetchSettled i (.response false json))).audioPlayer = e.audioPlayer) := by
  constructor
  · simp [VoiceMicReact.step, hr, hrp, VoiceMicReact.sendAudioResume, VoiceMicReact.sendAudioTry,
      VoiceMicReact.handleError, VoiceMicReact.render, VoiceMicReact.line]
  · simp [VoiceMic.step, he, hep, VoiceMic.sendAudioResume, VoiceMic.sendAudioTry,
      VoiceMic.handleError, VoiceMic.updateUI]

theorem demoReact_fetch : demoReact.browser.fetches[0]? = some demoFetch := by decide

theorem demoElement_fetch : demoElement.browser.fetches[0]? = some demoFetch := by decide

theorem nonSuccessStatus_surfaces_fixed_message_witness :
    (demoReact.browser.fetches[0]? = some demoFetch ∧ demoFetch.pending = true
      ∧ demoElement.browser.fetches[0]? = some demoFetch)
    ∧ (demoReact.step (.fetchSettled 0 (.response false (.error "<html>")))).calls
        = demoReact.calls ++ [Callback.onError "API request failed"]
    ∧ (demoElement.step (.fetchSettled 0 (.response false (.error "<html>")))).dispatched
        = demoElement.dispatched ++ [CustomEvent.mk "error" "API request failed"] :=
  ⟨⟨demoReact_fetch, rfl, demoElement_fetch⟩,
   (nonSuccessStatus_surfaces_fixed_message (.error "<html>") 0 demoFetch demoFetch
      demoReact demoElement demoReact_fetch rfl demoElement_fetch rfl).1.1,
   (nonSuccessStatus_surfaces_fixed_message (.error "<html>") 0 demoFetch demoFetch
      demoReact demoElement demoReact_fetch rfl demoElement_fetch rfl).2.1⟩

/-- C8: in both packagings, when an outstanding request fails with message `m`
before the status check (the fetch rejects) or after it has passed (the body does
not parse), the failure is caught and the error surfaced (callback `onError` / event
`error`, and the text stored for display) is exactly `m`. The element's continuation
of `sendAudio` settles normally; the component's throws only what the host's own
callback `onError` throws when it is called with `m`, so it settles normally whenever
that callback returns. -/
theorem exceptional_failure_message_passthrough
    (m : String) (o : FetchOutcome)
    (ho : o = .rejected m ∨ o = .response true (.error m))
    (i : Nat) (fr fe : Fetch) (r : VoiceMicReact) (e : VoiceMic)
    (hr : r.browser.fetches[i]? = some fr) (hrp : fr.pending = true)
    (he : e.browser.fetches[i]? = some fe) (hep : fe.pending = true) :
    ((VoiceMicReact.sendAudioResume { r with browser := r.browser.settleFetch i } o).thrown
          = r.onError m
      ∧ (r.step (.fetchSettled i o)).calls = r.calls ++ [Callback.onError m]
      ∧ (r.step (.fetchSettled i o)).error = m)
    ∧ ((∃ e2, VoiceMic.sendAudioResume { e with browser := e.browser.settleFetch i } o
          = Except.ok e2)
      ∧ (e.step (.fetchSettled i o)).dispatched = e.dispatched ++ [CustomEvent.mk "error" m]
      ∧ (e.step (.fetchSettled i o)).statusText = "Error: " ++ m) := by
  rcases ho with rfl | rfl
  · constructor
    · simp [VoiceMicReact.step, hr, hrp, VoiceMicReact.sendAudioResume,
        VoiceMicReact.sendAudioTry, VoiceMicReact.handleError]
    · simp [VoiceMic.step, he, hep, VoiceMic.sendAudioResume, VoiceMic.sendAudioTry,
        VoiceMic.handleError, VoiceMic.updateUI]
  · constructor
    · simp [VoiceMicReact.step, hr, hrp, VoiceMicReact.sendAudioResume,
        VoiceMicReact.sendAudioTry, VoiceMicReact.handleError]
    · simp [VoiceMic.step, he, hep, VoiceMic.sendAudioResume, VoiceMic.sendAudioTry,
        VoiceMic.handleError, VoiceMic.updateUI]

theorem exceptional_failure_message_passthrough_witness :
    (demoReact.browser.fetches[0]? = some demoFetch ∧ demoFetch.pending = true
      ∧ demoElement.browser.fetches[0]? = some demoFetch)
    ∧ (demoReact.step (.fetchSettled 0 (.rejected "network down"))).calls
        = demoReact.calls ++ [Callback.onError "network down"]
    ∧ (demoElement.step (.fetchSettled 0 (.rejected "network down"))).dispatched
        = demoElement.dispatched ++ [CustomEvent.mk "error" "network down"] :=
  ⟨⟨demoReact_fetch, rfl, demoElement_fetch⟩,
   (exceptional_failure_message_passthrough "network down" (.rejected "network down")
      (Or.inl rfl) 0 demoFetch demoFetch demoReact demoElement
      demoReact_fetch rfl demoElement_fetch rfl).1.2.1,
   (exceptional_failure_message_passthrough "network down" (.rejected "network down")
      (Or.inl rfl) 0 demoFetch demoFetch demoReact demoElement
      demoReact_fetch rfl demoElement_fetch rfl).2.2.1⟩

/-! ## Denied microphone -/

/-- C6: in both packagings, when the widget is not recording, a click starts
`startRecording`, and the capture-device request it makes is then denied: the
recording flag is false after the click and after the denial, the denial surfaces
exactly one error (callback `onError` / event `error`) and it is
"Microphone access denied", the widget is Idle afterwards, and neither a request
nor a capture session has been added. -/
theorem microphone_denied_stays_idle (r : VoiceMicReact) (e : VoiceMic)
    (hr : r.isRecording = false) (he : e.isRecording = false) :
    ((r.step .click).isRecording = false
      ∧ (r.step .click).phase = r.phase
      ∧ (r.step .click).calls = r.calls
      ∧ (r.run [.click, .micDenied]).isRecording = false
      ∧ (r.run [.click, .micDenied]).phase = Phase.idle
      ∧ (r.run [.click, .micDenied]).calls
          = r.calls ++ [Callback.onError "Microphone access denied"]
      ∧ (r.run [.click, .micDenied]).browser = r.browser)
    ∧ ((e.step .click).isRecording = false
      ∧ (e.step .click).phase = e.phase
      ∧ (e.step .click).dispatched = e.dispatched
      ∧ (e.run [.click, .micDenied]).isRecording = false
      ∧ (e.run [.click, .micDenied]).phase = Phase.idle
      ∧ (e.run [.click, .micDenied]).dispatched
          = e.dispatched ++ [CustomEvent.mk "error" "Microphone access denied"]
      ∧ (e.run [.click, .micDenied]).browser = e.browser) := by
  constructor
  · simp [VoiceMicReact.run, VoiceMicReact.step, VoiceMicReact.render, hr,
      VoiceMicReact.startRecording, VoiceMicReact.startRecordingResume,
      VoiceMicReact.handleError, VoiceMicReact.phase, Browser.getUserMedia, Browser.settleMic]
  · simp [VoiceMic.run, VoiceMic.step, VoiceMic.toggleRecording, he,
      VoiceMic.startRecording, VoiceMic.startRecordingResume,
      VoiceMic.handleError, VoiceMic.updateUI, VoiceMic.phase, Browser.getUserMedia,
      Browser.settleMic]

theorem microphone_denied_stays_idle_witness :
    ((VoiceMicReact.mount {} Browser.fresh).isRecording = false
      ∧ (VoiceMic.create none Browser.fresh).isRecording = false)
    ∧ ((VoiceMicReact.mount {} Browser.fresh).run [.click, .micDenied]).calls
        = (VoiceMicReact.mount {} Browser.fresh).calls
            ++ [Callback.onError "Microphone access denied"]
    ∧ ((VoiceMic.create none Browser.fresh).run [.click, .micDenied]).dispatched
        = (VoiceMic.create none Browser.fresh).dispatched
            ++ [CustomEvent.mk "error" "Microphone access denied"] :=
  ⟨⟨rfl, rfl⟩,
   (microphone_denied_stays_idle (VoiceMicReact.mount {} Browser.fresh)
      (VoiceMic.create none Browser.fresh) rfl rfl).1.2.2.2.2.2.1,
   (microphone_denied_stays_idle (VoiceMicReact.mount {} Browser.fresh)
      (VoiceMic.create none Browser.fresh) rfl rfl).2.2.2.2.2.2.1⟩

/-! ## The request -/

theorem VoiceMicReact.component_step_apiUrl (w : VoiceMicReact) (ev : Event) :
    (w.step ev).apiUrl = w.apiUrl := by
  cases ev with
  | click =>
    simp only [VoiceMicReact.step, VoiceMicReact.render]
    cases hrec : w.isRecording <;> simp [VoiceMicReact.startRecording, VoiceMicReact.stopRecording]
    cases w.mediaRecorderRef <;> simp [hrec]
  | micGranted =>
    simp only [VoiceMicReact.step]
    split <;> simp [VoiceMicReact.startRecordingResume]
  | micDenied =>
    simp only [VoiceMicReact.step]
    split <;> simp [VoiceMicReact.startRecordingResume, VoiceMicReact.handleError]
  | dataavailable k data =>
    simp only [VoiceMicReact.step]
    split
    · split <;> simp [VoiceMicReact.ondataavailable]
    · rfl
  | stop k =>
    simp only [VoiceMicReact.step]
    split
    · split <;> simp [VoiceMicReact.onstop, VoiceMicReact.sendAudio]
    · rfl
  | fetchSettled i outcome =>
    simp only [VoiceMicReact.step]
    split
    · split
      · simp only [VoiceMicReact.sendAudioResume]
        cases VoiceMicReact.sendAudioTry outcome with
        | error m => simp [VoiceMicReact.handleError]
        | ok data =>
          have key : ∀ v : VoiceMicReact, (v.handleResponse data).state.apiUrl = v.apiUrl := by
            intro v
            simp only [VoiceMicReact.handleResponse]
            cases v.audioPlayerRef <;> simp <;> split <;> simp
          simp only []
          split
          · rw [key]
          · simp [VoiceMicReact.handleError, key]
      · rfl
    · rfl

theorem VoiceMicReact.component_run_apiUrl (w : VoiceMicReact) (es : List Event) :
    (w.run es).apiUrl = w.apiUrl := by
  induction es generalizing w with
  | nil => rfl
  | cons ev es ih =>
    have h := ih (w.step ev)
    simp only [VoiceMicReact.run, List.foldl_cons] at h ⊢
    rw [h, VoiceMicReact.component_step_apiUrl]

theorem VoiceMic.element_step_apiUrl (w : VoiceMic) (ev : Event) :
    (w.step ev).apiUrl = w.apiUrl := by
  cases ev with
  | click =>
    simp only [VoiceMic.step, VoiceMic.toggleRecording]
    cases hrec : w.isRecording <;> simp [VoiceMic.startRecording, VoiceMic.stopRecording]
    cases w.mediaRecorder <;> simp [hrec, VoiceMic.updateUI]
  | micGranted =>
    simp only [VoiceMic.step]
    split <;> simp [VoiceMic.startRecordingResume, VoiceMic.updateUI]
  | micDenied =>
    simp only [VoiceMic.step]
    split <;> simp [VoiceMic.startRecordingResume, VoiceMic.handleError, VoiceMic.updateUI]
  | dataavailable k data =>
    simp only [VoiceMic.step]
    split
    · split <;> simp [VoiceMic.ondataavailable]
    · rfl
  | stop k =>
    simp only [VoiceMic.step]
    split
    · split <;> simp [VoiceMic.onstop, VoiceMic.sendAudio]
    · rfl
  | fetchSettled i outcome =>
    simp only [VoiceMic.step]
    split
    · split
      · simp only [VoiceMic.sendAudioResume]
        cases VoiceMic.sendAudioTry outcome with
        | error m => simp [VoiceMic.handleError, VoiceMic.updateUI]
        | ok data => simp [VoiceMic.handleResponse, VoiceMic.updateUI]
      · rfl
    · rfl

theorem VoiceMic.element_run_apiUrl (w : VoiceMic) (es : List Event) :
    (w.run es).apiUrl = w.apiUrl := by
  induction es generalizing w with
  | nil => rfl
  | cons ev es ih =>
    have h := ih (w.step ev)
    simp only [VoiceMic.run, List.foldl_cons] at h ⊢
    rw [h, VoiceMic.element_step_apiUrl]

theorem VoiceMic.runHost_apiUrl (w : VoiceMic) (acts : List HostAction) :
    (w.runHost acts).apiUrl = w.apiUrl := by
  induction acts generalizing w with
  | nil => rfl
  | cons a acts ih =>
    have h := ih (w.act a)
    simp only [VoiceMic.runHost, List.foldl_cons] at h ⊢
    rw [h]
    cases a with
    | event ev => exact VoiceMic.element_step_apiUrl w ev
    | setAttribute name value =>
      simp only [VoiceMic.act, VoiceMic.setAttribute]
      split <;> rfl

/-- C9, as the claim states it, fails: an element whose `api` attribute is the empty
string does not post to the empty base followed by "/voice/query", it posts to the
default backend; and an element that receives a non-empty `api` attribute after its
constructor has run (created first, attribute set afterwards) posts to the default
backend as well, not to the base its attribute names. -/
theorem api_attribute_not_always_the_base :
    (((VoiceMic.create (some "") Browser.fresh).run
        [.click, .micGranted, .click, .stop 0]).browser.requests.map Request.url
      = ["http://localhost:9000/voice/query"]
    ∧ ((VoiceMic.create (some "") Browser.fresh).run
        [.click, .micGranted, .click, .stop 0]).browser.requests.map Request.url
      ≠ ["" ++ "/voice/query"])
    ∧ (((VoiceMic.create none Browser.fresh).setAttribute "api" "http://backend").apiAttribute
      = some "http://backend"
    ∧ (((VoiceMic.create none Browser.fresh).setAttribute "api" "http://backend").run
        [.click, .micGranted, .click, .stop 0]).browser.requests.map Request.url
      = ["http://localhost:9000/voice/query"]
    ∧ (((VoiceMic.create none Browser.fresh).setAttribute "api" "http://backend").run
        [.click, .micGranted, .click, .stop 0]).browser.requests.map Request.url
      ≠ ["http://backend" ++ "/voice/query"]) := by
  decide

/-- C9, amended: whatever has happened to a widget before (for the element: events
and attribute changes by the host, in any order), the call of `sendAudio` with a
package adds exactly one request, a POST to the base followed by "/voice/query" whose
body has the single field "audio" carrying the package under the filename
"recording.webm". For the component the base is the prop `apiUrl` when passed, else
"http://localhost:9000". For the element the base is fixed by what `getAttribute('api')`
returns while the constructor runs: that value when it is a non-empty string, else
"http://localhost:9000"; setting the attribute afterwards does not change the base. -/
theorem request_shape (acts : List HostAction) (es : List Event) (audioBlob : Blob)
    (b : Browser) :
    (∀ props : Props,
      (((VoiceMicReact.mount props b).run es).sendAudio audioBlob).browser.fetches
        = ((VoiceMicReact.mount props b).run es).browser.fetches ++
          [{ request :=
              { url := ((VoiceMicReact.mount props b).run es).apiUrl ++ "/voice/query",
                method := "POST",
                body := [FormEntry.mk "audio" audioBlob "recording.webm"] },
             pending := true }])
    ∧ (∀ (props : Props) (base : String), props.apiUrl = some base →
        ((VoiceMicReact.mount props b).run es).apiUrl = base)
    ∧ (∀ props : Props, props.apiUrl = none →
        ((VoiceMicReact.mount props b).run es).apiUrl = "http://localhost:9000")
    ∧ (∀ api : Option String,
      (((VoiceMic.create api b).runHost acts).sendAudio audioBlob).browser.fetches
        = ((VoiceMic.create api b).runHost acts).browser.fetches ++
          [{ request :=
              { url := ((VoiceMic.create api b).runHost acts).apiUrl ++ "/voice/query",
                method := "POST",
                body := [FormEntry.mk "audio" audioBlob "recording.webm"] },
             pending := true }])
    ∧ (∀ base : String, base ≠ "" →
        ((VoiceMic.create (some base) b).runHost acts).apiUrl = base)
    ∧ ((VoiceMic.create (some "") b).runHost acts).apiUrl = "http://localhost:9000"
    ∧ ((VoiceMic.create none b).runHost acts).apiUrl = "http://localhost:9000" := by
  refine ⟨?_, ?_, ?_, ?_, ?_, ?_, ?_⟩
  · intro props
    simp [VoiceMicReact.sendAudio, Browser.fetch]
  · intro props base hp
    rw [VoiceMicReact.component_run_apiUrl]
    simp [VoiceMicReact.mount, hp]
  · intro props hp
    rw [VoiceMicReact.component_run_apiUrl]
    simp [VoiceMicReact.mount, hp]
  · intro api
    simp [VoiceMic.sendAudio, Browser.fetch]
  · intro base hbase
    rw [VoiceMic.runHost_apiUrl]
    simp [VoiceMic.create, orDefault, hbase]
  · rw [VoiceMic.runHost_apiUrl]; rfl
  · rw [VoiceMic.runHost_apiUrl]; rfl

/-! ## Order of the stop handler -/

/-- C5, as the claim states it, fails: in the stop handling of either packaging the
package is assembled and the POST is issued while the tracks of the session's stream
are still live; the tracks are stopped after the request has left. -/
theorem post_issued_before_tracks_stopped :
    ((VoiceMicReact.mount {} Browser.fresh).run
        [.click, .micGranted, .click, .stop 0]).browser.log
      = [Effect.acquire 0, Effect.assemble ⟨[], "audio/webm"⟩,
         Effect.post { url := "http://localhost:9000/voice/query", method := "POST",
                       body := [FormEntry.mk "audio" ⟨[], "audio/webm"⟩ "recording.webm"] },
         Effect.release 0]
    ∧ ((VoiceMic.create none Browser.fresh).run
        [.click, .micGranted, .click, .stop 0]).browser.log
      = [Effect.acquire 0, Effect.assemble ⟨[], "audio/webm"⟩,
         Effect.post { url := "http://localhost:9000/voice/query", method := "POST",
                       body := [FormEntry.mk "audio" ⟨[], "audio/webm"⟩ "recording.webm"] },
         Effect.release 0]
    ∧ ((((VoiceMic.create none Browser.fresh).run [.click, .micGranted, .click]).sendAudio
          (Blob.new [] "audio/webm")).browser.sessions.map Session.live = [true]
      ∧ (((VoiceMic.create none Browser.fresh).run [.click, .micGranted, .click]).sendAudio
          (Blob.new [] "audio/webm")).browser.requests.length = 1)
    ∧ ((((VoiceMicReact.mount {} Browser.fresh).run [.click, .micGranted, .click]).sendAudio
          (Blob.new [] "audio/webm")).browser.sessions.map Session.live = [true]
      ∧ (((VoiceMicReact.mount {} Browser.fresh).run [.click, .micGranted, .click]).sendAudio
          (Blob.new [] "audio/webm")).browser.requests.length = 1) := by
  decide

/-- C5, amended: in every execution of the stop handling of either packaging (the
`stop` event of a stopped recorder `k` is delivered), the platform calls made are, in
this order, the assembly of the package from the buffered fragments, the POST
carrying it, and the stopping of all tracks of the session's stream; when the handler
returns the stream is released and the request is still unanswered, so the release
happens whatever the outcome of the transmission. -/
theorem stop_handler_order (k : Nat) (sr se : Session) (r : VoiceMicReact) (e : VoiceMic)
    (hr : r.browser.sessions[k]? = some sr) (hrs : sr.state = RecState.stopping)
    (he : e.browser.sessions[k]? = some se) (hes : se.state = RecState.stopping) :
    ((r.step (.stop k)).browser.log
        = r.browser.log ++
          [Effect.assemble (Blob.new r.audioChunksRef "audio/webm"),
           Effect.post { url := r.apiUrl ++ "/voice/query", method := "POST",
                         body := [FormEntry.mk "audio" (Blob.new r.audioChunksRef "audio/webm")
                                    "recording.webm"] },
           Effect.release k]
      ∧ (r.step (.stop k)).browser.sessions[k]? = some { live := false, state := .inactive }
      ∧ (r.step (.stop k)).browser.fetches
        = r.browser.fetches ++
          [{ request :=
              { url := r.apiUrl ++ "/voice/query", method := "POST",
                body := [FormEntry.mk "audio" (Blob.new r.audioChunksRef "audio/webm")
                           "recording.webm"] },
             pending := true }]
      ∧ (r.step (.stop k)).calls = r.calls)
    ∧ ((e.step (.stop k)).browser.log
        = e.browser.log ++
          [Effect.assemble (Blob.new e.audioChunks "audio/webm"),
           Effect.post { url := e.apiUrl ++ "/voice/query", method := "POST",
                         body := [FormEntry.mk "audio" (Blob.new e.audioChunks "audio/webm")
                                    "recording.webm"] },
           Effect.release k]
      ∧ (e.step (.stop k)).browser.sessions[k]? = some { live := false, state := .inactive }
      ∧ (e.step (.stop k)).browser.fetches
        = e.browser.fetches ++
          [{ request :=
              { url := e.apiUrl ++ "/voice/query", method := "POST",
                body := [FormEntry.mk "audio" (Blob.new e.audioChunks "audio/webm")
                           "recording.webm"] },
             pending := true }]
      ∧ (e.step (.stop k)).dispatched = e.dispatched) := by
  constructor
  · simp [VoiceMicReact.step, hr, hrs, VoiceMicReact.onstop, VoiceMicReact.sendAudio,
      Browser.assemble, Browser.fetch, Browser.stopTracks, Browser.stopDelivered,
      getElem?_updateAt_self]
  · simp [VoiceMic.step, he, hes, VoiceMic.onstop, VoiceMic.sendAudio,
      Browser.assemble, Browser.fetch, Browser.stopTracks, Browser.stopDelivered,
      getElem?_updateAt_self]

theorem request_shape_witness :
    ("http://backend" ≠ "")
    ∧ ((VoiceMic.create (some "http://backend") Browser.fresh).runHost
        [.event .click, .setAttribute "api" "http://other", .event .micGranted]).apiUrl
      = "http://backend" :=
  ⟨by decide,
   (request_shape [.event .click, .setAttribute "api" "http://other", .event .micGranted]
      [.click, .micGranted] (Blob.new [] "audio/webm") Browser.fresh).2.2.2.2.1
     "http://backend" (by decide)⟩

theorem stop_handler_order_witness :
    (((VoiceMicReact.mount {} Browser.fresh).run
          [.click, .micGranted, .click]).browser.sessions[0]?
        = some { live := true, state := .stopping }
      ∧ ((VoiceMic.create none Browser.fresh).run
          [.click, .micGranted, .click]).browser.sessions[0]?
        = some { live := true, state := .stopping })
    ∧ ((((VoiceMicReact.mount {} Browser.fresh).run
          [.click, .micGranted, .click]).step (.stop 0)).browser.sessions[0]?
        = some { live := false, state := .inactive })
    ∧ ((((VoiceMic.create none Browser.fresh).run
          [.click, .micGranted, .click]).step (.stop 0)).browser.sessions[0]?
        = some { live := false, state := .inactive }) :=
  ⟨⟨by decide, by decide⟩,
   (stop_handler_order 0 { live := true, state := .stopping } { live := true, state := .stopping }
      ((VoiceMicReact.mount {} Browser.fresh).run [.click, .micGranted, .click])
      ((VoiceMic.create none Browser.fresh).run [.click, .micGranted, .click])
      (by decide) rfl (by decide) rfl).1.2.1,
   (stop_handler_order 0 { live := true, state := .stopping } { live := true, state := .stopping }
      ((VoiceMicReact.mount {} Browser.fresh).run [.click, .micGranted, .click])
      ((VoiceMic.create none Browser.fresh).run [.click, .micGranted, .click])
      (by decide) rfl (by decide) rfl).2.2.1⟩

/-! ## One capture session, from grant to request -/

theorem VoiceMic.element_run_append (w : VoiceMic) (es fs : List Event) :
    w.run (es ++ fs) = (w.run es).run fs := by
  simp [VoiceMic.run, List.foldl_append]

theorem VoiceMicReact.component_run_append (w : VoiceMicReact) (es fs : List Event) :
    w.run (es ++ fs) = (w.run es).run fs := by
  simp [VoiceMicReact.run, List.foldl_append]

theorem VoiceMic.element_run_data (w : VoiceMic) (k : Nat) (s : Session) (ds : List Blob)
    (hs : w.browser.sessions[k]? = some s) (hst : s.state ≠ RecState.inactive) :
    w.run (ds.map (Event.dataavailable k)) = { w with audioChunks := w.audioChunks ++ ds } := by
  induction ds generalizing w with
  | nil => simp [VoiceMic.run]
  | cons d ds ih =>
    have h1 : w.step (.dataavailable k d) = { w with audioChunks := w.audioChunks ++ [d] } := by
      simp [VoiceMic.step, hs, hst, VoiceMic.ondataavailable]
    have h2 := ih { w with audioChunks := w.audioChunks ++ [d] } hs
    simp only [VoiceMic.run, List.map_cons, List.foldl_cons] at h2 ⊢
    rw [h1, h2]
    simp

theorem VoiceMicReact.component_run_data (w : VoiceMicReact) (k : Nat) (s : Session) (ds : List Blob)
    (hs : w.browser.sessions[k]? = some s) (hst : s.state ≠ RecState.inactive) :
    w.run (ds.map (Event.dataavailable k))
      = { w with audioChunksRef := w.audioChunksRef ++ ds } := by
  induction ds generalizing w with
  | nil => simp [VoiceMicReact.run]
  | cons d ds ih =>
    have h1 : w.step (.dataavailable k d)
        = { w with audioChunksRef := w.audioChunksRef ++ [d] } := by
      simp [VoiceMicReact.step, hs, hst, VoiceMicReact.ondataavailable]
    have h2 := ih { w with audioChunksRef := w.audioChunksRef ++ [d] } hs
    simp only [VoiceMicReact.run, List.map_cons, List.foldl_cons] at h2 ⊢
    rw [h1, h2]
    simp

theorem VoiceMic.element_run_session (w : VoiceMic) (before after : List Blob)
    (hrec : w.isRecording = false) :
    (w.run (sessionEvents w.browser.sessions.length before after)).browser.fetches
      = w.browser.fetches ++
        [{ request :=
            { url := w.apiUrl ++ "/voice/query", method := "POST",
              body := [FormEntry.mk "audio" (Blob.new (before ++ after) "audio/webm")
                         "recording.webm"] },
           pending := true }]
    ∧ (w.run (sessionEvents w.browser.sessions.length before after)).dispatched = w.dispatched
    ∧ (w.run (sessionEvents w.browser.sessions.length before after)).apiUrl = w.apiUrl
    ∧ (w.run (sessionEvents w.browser.sessions.length before after)).isRecording = false := by
  have hA : w.run [.click, .micGranted]
      = { w with
          browser := { w.browser with
            sessions := w.browser.sessions ++ [{ live := true, state := .recording }]
            log := w.browser.log ++ [.acquire w.browser.sessions.length] }
          mediaRecorder := some w.browser.sessions.length
          audioChunks := []
          isRecording := true
          micBtnClass := "mic-button recording"
          statusClass := "status"
          statusText := "Recording..." } := by
    simp [VoiceMic.run, VoiceMic.step, VoiceMic.toggleRecording, hrec, VoiceMic.startRecording,
      VoiceMic.startRecordingResume, VoiceMic.updateUI, Browser.getUserMedia, Browser.settleMic,
      Browser.newRecorder, Browser.recorderStart, updateAt_concat]
  simp only [sessionEvents, VoiceMic.element_run_append, hA]
  rw [VoiceMic.element_run_data _ w.browser.sessions.length { live := true, state := .recording } before
    (by simp) (by simp)]
  have hC : ∀ v : VoiceMic, v.isRecording = true →
      v.mediaRecorder = some w.browser.sessions.length →
      v.browser.sessions = w.browser.sessions ++ [{ live := true, state := .recording }] →
      v.run [.click] = { v with
          browser := { v.browser with
            sessions := w.browser.sessions ++ [{ live := true, state := .stopping }] }
          isRecording := false
          micBtnClass := "mic-button "
          statusClass := "status"
          statusText := "Processing..." } := by
    intro v h1 h2 h3
    simp [VoiceMic.run, VoiceMic.step, VoiceMic.toggleRecording, VoiceMic.stopRecording, h1, h2,
      VoiceMic.updateUI, Browser.recorderStop, h3, updateAt_concat]
  rw [hC _ rfl rfl rfl]
  rw [VoiceMic.element_run_data _ w.browser.sessions.length { live := true, state := .stopping } after
    (by simp) (by simp)]
  simp [VoiceMic.run, VoiceMic.step, VoiceMic.onstop, VoiceMic.sendAudio, Browser.assemble,
    Browser.fetch, Browser.stopTracks, Browser.stopDelivered, updateAt_concat]

theorem VoiceMicReact.component_run_session (w : VoiceMicReact) (before after : List Blob)
    (hrec : w.isRecording = false) :
    (w.run (sessionEvents w.browser.sessions.length before after)).browser.fetches
      = w.browser.fetches ++
        [{ request :=
            { url := w.apiUrl ++ "/voice/query", method := "POST",
              body := [FormEntry.mk "audio" (Blob.new (before ++ after) "audio/webm")
                         "recording.webm"] },
           pending := true }]
    ∧ (w.run (sessionEvents w.browser.sessions.length before after)).calls = w.calls
    ∧ (w.run (sessionEvents w.browser.sessions.length before after)).apiUrl = w.apiUrl
    ∧ (w.run (sessionEvents w.browser.sessions.length before after)).isRecording = false
    ∧ (w.run (sessionEvents w.browser.sessions.length before after)).audioPlayerRef
      = w.audioPlayerRef := by
  have hA : w.run [.click, .micGranted]
      = { w with
          browser := { w.browser with
            sessions := w.browser.sessions ++ [{ live := true, state := .recording }]
            log := w.browser.log ++ [.acquire w.browser.sessions.length] }
          mediaRecorderRef := some w.browser.sessions.length
          audioChunksRef := []
          isRecording := true
          status := "Recording..."
          error := "" } := by
    simp [VoiceMicReact.run, VoiceMicReact.step, VoiceMicReact.render, hrec,
      VoiceMicReact.startRecording, VoiceMicReact.startRecordingResume, Browser.getUserMedia,
      Browser.settleMic, Browser.newRecorder, Browser.recorderStart, updateAt_concat]
  simp only [sessionEvents, VoiceMicReact.component_run_append, hA]
  rw [VoiceMicReact.component_run_data _ w.browser.sessions.length { live := true, state := .recording }
    before (by simp) (by simp)]
  have hC : ∀ v : VoiceMicReact, v.isRecording = true →
      v.mediaRecorderRef = some w.browser.sessions.length →
      v.browser.sessions = w.browser.sessions ++ [{ live := true, state := .recording }] →
      v.run [.click] = { v with
          browser := { v.browser with
            sessions := w.browser.sessions ++ [{ live := true, state := .stopping }] }
          isRecording := false
          status := "Processing..." } := by
    intro v h1 h2 h3
    simp [VoiceMicReact.run, VoiceMicReact.step, VoiceMicReact.render,
      VoiceMicReact.stopRecording, h1, h2, Browser.recorderStop, h3, updateAt_concat]
  rw [hC _ rfl rfl rfl]
  rw [VoiceMicReact.component_run_data _ w.browser.sessions.length { live := true, state := .stopping }
    after (by simp) (by simp)]
  simp [VoiceMicReact.run, VoiceMicReact.step, VoiceMicReact.onstop, VoiceMicReact.sendAudio,
    Browser.assemble, Browser.fetch, Browser.stopTracks, Browser.stopDelivered, updateAt_concat]

/-! ## What the component's handlers leave alone -/

theorem VoiceMicReact.handleError_frame (w : VoiceMicReact) (m : String) :
    (w.handleError m).state.browser = w.browser
    ∧ (w.handleError m).state.audioChunksRef = w.audioChunksRef
    ∧ (w.handleError m).state.isRecording = w.isRecording
    ∧ (w.handleError m).state.mediaRecorderRef = w.mediaRecorderRef
    ∧ (w.handleError m).state.apiUrl = w.apiUrl
    ∧ (w.handleError m).state.status = "Ready"
    ∧ (w.handleError m).state.onTranscript = w.onTranscript
    ∧ (w.handleError m).state.onResponse = w.onResponse
    ∧ (w.handleError m).state.onError = w.onError := by
  simp [VoiceMicReact.handleError]

theorem VoiceMicReact.handleResponse_frame (w : VoiceMicReact) (d : BackendResult) :
    (w.handleResponse d).state.browser = w.browser
    ∧ (w.handleResponse d).state.audioChunksRef = w.audioChunksRef
    ∧ (w.handleResponse d).state.isRecording = w.isRecording
    ∧ (w.handleResponse d).state.mediaRecorderRef = w.mediaRecorderRef
    ∧ (w.handleResponse d).state.apiUrl = w.apiUrl
    ∧ (w.handleResponse d).state.status = "Ready"
    ∧ (w.handleResponse d).state.onTranscript = w.onTranscript
    ∧ (w.handleResponse d).state.onResponse = w.onResponse
    ∧ (w.handleResponse d).state.onError = w.onError := by
  simp only [VoiceMicReact.handleResponse]
  cases w.audioPlayerRef <;> simp <;> split <;> simp

theorem VoiceMicReact.sendAudioResume_frame (w : VoiceMicReact) (o : FetchOutcome) :
    (w.sendAudioResume o).state.browser = w.browser
    ∧ (w.sendAudioResume o).state.audioChunksRef = w.audioChunksRef
    ∧ (w.sendAudioResume o).state.isRecording = w.isRecording
    ∧ (w.sendAudioResume o).state.mediaRecorderRef = w.mediaRecorderRef
    ∧ (w.sendAudioResume o).state.apiUrl = w.apiUrl
    ∧ (w.sendAudioResume o).state.status = "Ready"
    ∧ (w.sendAudioResume o).state.onTranscript = w.onTranscript
    ∧ (w.sendAudioResume o).state.onResponse = w.onResponse
    ∧ (w.sendAudioResume o).state.onError = w.onError := by
  simp only [VoiceMicReact.sendAudioResume]
  cases VoiceMicReact.sendAudioTry o with
  | error m => exact VoiceMicReact.handleError_frame w m
  | ok d =>
    have h1 := VoiceMicReact.handleResponse_frame w d
    simp only []
    split
    · exact h1
    · rename_i m _
      have h2 := VoiceMicReact.handleError_frame (w.handleResponse d).state m
      obtain ⟨a1, a2, a3, a4, a5, _, a7, a8, a9⟩ := h1
      obtain ⟨b1, b2, b3, b4, b5, b6, b7, b8, b9⟩ := h2
      exact ⟨b1.trans a1, b2.trans a2, b3.trans a3, b4.trans a4, b5.trans a5, b6,
        b7.trans a7, b8.trans a8, b9.trans a9⟩

/-! ## The buffer of an undisturbed session -/

theorem fragmentsOf_cons (k : Nat) (ev : Event) (es : List Event) :
    fragmentsOf k (ev :: es) = fragmentsOf k [ev] ++ fragmentsOf k es := by
  cases ev with
  | dataavailable j data =>
    by_cases h : j = k <;> simp [fragmentsOf, h]
  | _ => simp [fragmentsOf]

theorem stopIt_keeps_active (s : Session) (hst : s.state ≠ RecState.inactive) :
    (if s.state = RecState.recording then { s with state := RecState.stopping } else s).state
      ≠ RecState.inactive := by
  split
  · simp
  · exact hst

theorem VoiceMic.element_step_undisturbed (w : VoiceMic) (k : Nat) (s : Session) (ev : Event)
    (hs : w.browser.sessions[k]? = some s) (hst : s.state ≠ RecState.inactive)
    (hev : ev.undisturbing k = true) :
    (w.step ev).audioChunks = w.audioChunks ++ fragmentsOf k [ev]
    ∧ ∃ s2, (w.step ev).browser.sessions[k]? = some s2 ∧ s2.state ≠ RecState.inactive := by
  cases ev with
  | click =>
    simp only [VoiceMic.step, VoiceMic.toggleRecording, fragmentsOf, List.append_nil]
    cases hrec : w.isRecording
    · exact ⟨rfl, s, hs, hst⟩
    · simp only [↓reduceIte, VoiceMic.stopRecording, hrec]
      cases hm : w.mediaRecorder with
      | none => exact ⟨rfl, s, hs, hst⟩
      | some j =>
        refine ⟨rfl, ?_⟩
        by_cases hj : j = k
        · subst hj
          refine ⟨_, ?_, stopIt_keeps_active s hst⟩
          simp [VoiceMic.updateUI, Browser.recorderStop, getElem?_updateAt_self, hs]
        · refine ⟨s, ?_, hst⟩
          simp only [VoiceMic.updateUI, Browser.recorderStop]
          rw [getElem?_updateAt_ne _ _ _ _ (Ne.symm hj)]
          exact hs
  | micGranted => simp [Event.undisturbing] at hev
  | micDenied =>
    simp only [VoiceMic.step, fragmentsOf, List.append_nil]
    split
    · exact ⟨rfl, s, hs, hst⟩
    · exact ⟨rfl, s, hs, hst⟩
  | dataavailable j data =>
    have hj : j = k := by simpa [Event.undisturbing] using hev
    subst hj
    have hstep : w.step (.dataavailable j data)
        = { w with audioChunks := w.audioChunks ++ [data] } := by
      simp [VoiceMic.step, hs, hst, VoiceMic.ondataavailable]
    rw [hstep]
    exact ⟨by simp [fragmentsOf], s, hs, hst⟩
  | stop j =>
    have hj : j ≠ k := by simpa [Event.undisturbing] using hev
    simp only [VoiceMic.step, fragmentsOf, List.append_nil]
    split
    · split
      · refine ⟨rfl, s, ?_, hst⟩
        simp only [VoiceMic.onstop, VoiceMic.sendAudio, Browser.stopTracks, Browser.fetch,
          Browser.assemble, Browser.stopDelivered]
        rw [getElem?_updateAt_ne _ _ _ _ (Ne.symm hj), getElem?_updateAt_ne _ _ _ _ (Ne.symm hj)]
        exact hs
      · exact ⟨rfl, s, hs, hst⟩
    · exact ⟨rfl, s, hs, hst⟩
  | fetchSettled i o =>
    simp only [VoiceMic.step, fragmentsOf, List.append_nil]
    split
    · split
      · simp only [VoiceMic.sendAudioResume]
        cases VoiceMic.sendAudioTry o with
        | error m => exact ⟨rfl, s, hs, hst⟩
        | ok d => exact ⟨rfl, s, hs, hst⟩
      · exact ⟨rfl, s, hs, hst⟩
    · exact ⟨rfl, s, hs, hst⟩

theorem VoiceMic.element_run_undisturbed (w : VoiceMic) (k : Nat) (s : Session)
    (es : List Event)
    (hs : w.browser.sessions[k]? = some s) (hst : s.state ≠ RecState.inactive)
    (hes : ∀ ev ∈ es, ev.undisturbing k = true) :
    (w.run es).audioChunks = w.audioChunks ++ fragmentsOf k es := by
  induction es generalizing w s with
  | nil => simp [VoiceMic.run, fragmentsOf]
  | cons ev es ih =>
    obtain ⟨h1, s2, h2, h3⟩ :=
      VoiceMic.element_step_undisturbed w k s ev hs hst (hes ev (List.mem_cons_self _ _))
    have h := ih (w.step ev) s2 h2 h3 (fun x hx => hes x (List.mem_cons_of_mem _ hx))
    simp only [VoiceMic.run, List.foldl_cons] at h ⊢
    rw [h, h1, fragmentsOf_cons k ev es, List.append_assoc]

theorem VoiceMicReact.component_step_undisturbed (w : VoiceMicReact) (k : Nat) (s : Session)
    (ev : Event)
    (hs : w.browser.sessions[k]? = some s) (hst : s.state ≠ RecState.inactive)
    (hev : ev.undisturbing k = true) :
    (w.step ev).audioChunksRef = w.audioChunksRef ++ fragmentsOf k [ev]
    ∧ ∃ s2, (w.step ev).browser.sessions[k]? = some s2 ∧ s2.state ≠ RecState.inactive := by
  cases ev with
  | click =>
    simp only [VoiceMicReact.step, VoiceMicReact.render, fragmentsOf, List.append_nil]
    cases hrec : w.isRecording
    · exact ⟨rfl, s, hs, hst⟩
    · simp only [↓reduceIte, VoiceMicReact.stopRecording, hrec]
      cases hm : w.mediaRecorderRef with
      | none => exact ⟨rfl, s, hs, hst⟩
      | some j =>
        refine ⟨rfl, ?_⟩
        by_cases hj : j = k
        · subst hj
          refine ⟨_, ?_, stopIt_keeps_active s hst⟩
          simp [Browser.recorderStop, getElem?_updateAt_self, hs]
        · refine ⟨s, ?_, hst⟩
          simp only [Browser.recorderStop]
          rw [getElem?_updateAt_ne _ _ _ _ (Ne.symm hj)]
          exact hs
  | micGranted => simp [Event.undisturbing] at hev
  | micDenied =>
    simp only [VoiceMicReact.step, fragmentsOf, List.append_nil]
    split
    · exact ⟨rfl, s, hs, hst⟩
    · exact ⟨rfl, s, hs, hst⟩
  | dataavailable j data =>
    have hj : j = k := by simpa [Event.undisturbing] using hev
    subst hj
    have hstep : w.step (.dataavailable j data)
        = { w with audioChunksRef := w.audioChunksRef ++ [data] } := by
      simp [VoiceMicReact.step, hs, hst, VoiceMicReact.ondataavailable]
    rw [hstep]
    exact ⟨by simp [fragmentsOf], s, hs, hst⟩
  | stop j =>
    have hj : j ≠ k := by simpa [Event.undisturbing] using hev
    simp only [VoiceMicReact.step, fragmentsOf, List.append_nil]
    split
    · split
      · refine ⟨rfl, s, ?_, hst⟩
        simp only [VoiceMicReact.onstop, VoiceMicReact.sendAudio, Browser.stopTracks,
          Browser.fetch, Browser.assemble, Browser.stopDelivered]
        rw [getElem?_updateAt_ne _ _ _ _ (Ne.symm hj), getElem?_updateAt_ne _ _ _ _ (Ne.symm hj)]
        exact hs
      · exact ⟨rfl, s, hs, hst⟩
    · exact ⟨rfl, s, hs, hst⟩
  | fetchSettled i o =>
    simp only [VoiceMicReact.step, fragmentsOf, List.append_nil]
    split
    · split
      · obtain ⟨h1, h2, _⟩ := VoiceMicReact.sendAudioResume_frame
          { w with browser := w.browser.settleFetch i } o
        rw [h1, h2]
        exact ⟨rfl, s, hs, hst⟩
      · exact ⟨rfl, s, hs, hst⟩
    · exact ⟨rfl, s, hs, hst⟩

theorem VoiceMicReact.component_run_undisturbed (w : VoiceMicReact) (k : Nat) (s : Session)
    (es : List Event)
    (hs : w.browser.sessions[k]? = some s) (hst : s.state ≠ RecState.inactive)
    (hes : ∀ ev ∈ es, ev.undisturbing k = true) :
    (w.run es).audioChunksRef = w.audioChunksRef ++ fragmentsOf k es := by
  induction es generalizing w s with
  | nil => simp [VoiceMicReact.run, fragmentsOf]
  | cons ev es ih =>
    obtain ⟨h1, s2, h2, h3⟩ :=
      VoiceMicReact.component_step_undisturbed w k s ev hs hst (hes ev (List.mem_cons_self _ _))
    have h := ih (w.step ev) s2 h2 h3 (fun x hx => hes x (List.mem_cons_of_mem _ hx))
    simp only [VoiceMicReact.run, List.foldl_cons] at h ⊢
    rw [h, h1, fragmentsOf_cons k ev es, List.append_assoc]

/-! ## The audio package -/

/-- C3, as the claim states it, fails in both packagings: all recorders push into the
one buffer of the widget. After click, click, grant, a fragment of recorder 0, the
second grant, another fragment of recorder 0, a fragment of recorder 1, click and the
`stop` event of recorder 1, the package sent for session 1 holds the bytes 2 and 3,
although session 1 received only the fragment with byte 3. -/
theorem package_mixes_concurrent_sessions :
    (((VoiceMic.create none Browser.fresh).run
        [.click, .click, .micGranted, .dataavailable 0 ⟨[1], "audio/webm"⟩, .micGranted,
         .dataavailable 0 ⟨[2], "audio/webm"⟩, .dataavailable 1 ⟨[3], "audio/webm"⟩,
         .click, .stop 1]).browser.requests.map Request.body
      = [[FormEntry.mk "audio" ⟨[2, 3], "audio/webm"⟩ "recording.webm"]]
    ∧ ((VoiceMicReact.mount {} Browser.fresh).run
        [.click, .click, .micGranted, .dataavailable 0 ⟨[1], "audio/webm"⟩, .micGranted,
         .dataavailable 0 ⟨[2], "audio/webm"⟩, .dataavailable 1 ⟨[3], "audio/webm"⟩,
         .click, .stop 1]).browser.requests.map Request.body
      = [[FormEntry.mk "audio" ⟨[2, 3], "audio/webm"⟩ "recording.webm"]])
    ∧ fragmentsOf 1
        [.click, .click, .micGranted, .dataavailable 0 ⟨[1], "audio/webm"⟩, .micGranted,
         .dataavailable 0 ⟨[2], "audio/webm"⟩, .dataavailable 1 ⟨[3], "audio/webm"⟩,
         .click, .stop 1]
      = [⟨[3], "audio/webm"⟩]
    ∧ ([2, 3] : List Nat) ≠ [3] := by
  decide

/-- C3, amended: in both packagings, take a widget with a microphone request
outstanding (whatever an earlier session left in its buffer), let the request be
granted, and let any events follow among which there is no further grant, no fragment
of another recorder and not yet the `stop` event of the new session. If the new
session's recorder has then been stopped, its `stop` event adds exactly one request,
and the package it carries has as content the bytes of the fragments delivered to the
session, concatenated in arrival order, and media type "audio/webm". -/
theorem package_of_undisturbed_session (es : List Event) (r : VoiceMicReact) (e : VoiceMic)
    (sr se : Session)
    (hr : r.browser.pendingMic ≠ 0) (he : e.browser.pendingMic ≠ 0)
    (hres : ∀ ev ∈ es, ev.undisturbing r.browser.sessions.length = true)
    (hees : ∀ ev ∈ es, ev.undisturbing e.browser.sessions.length = true)
    (hrk : ((r.step .micGranted).run es).browser.sessions[r.browser.sessions.length]? = some sr)
    (hrs : sr.state = RecState.stopping)
    (hek : ((e.step .micGranted).run es).browser.sessions[e.browser.sessions.length]? = some se)
    (hes : se.state = RecState.stopping) :
    (((r.step .micGranted).run es).step (.stop r.browser.sessions.length)).browser.requests
      = ((r.step .micGranted).run es).browser.requests ++
        [{ url := r.apiUrl ++ "/voice/query", method := "POST",
           body := [FormEntry.mk "audio"
             { content := ((fragmentsOf r.browser.sessions.length es).map Blob.content).flatten,
               type := "audio/webm" }
             "recording.webm"] }]
    ∧ (((e.step .micGranted).run es).step (.stop e.browser.sessions.length)).browser.requests
      = ((e.step .micGranted).run es).browser.requests ++
        [{ url := e.apiUrl ++ "/voice/query", method := "POST",
           body := [FormEntry.mk "audio"
             { content := ((fragmentsOf e.browser.sessions.length es).map Blob.content).flatten,
               type := "audio/webm" }
             "recording.webm"] }] := by
  constructor
  · have hg : (r.step .micGranted).audioChunksRef = []
        ∧ (r.step .micGranted).browser.sessions[r.browser.sessions.length]?
            = some { live := true, state := .recording } := by
      simp [VoiceMicReact.step, hr, VoiceMicReact.startRecordingResume, Browser.settleMic,
        Browser.newRecorder, Browser.recorderStart, updateAt_concat]
    have hbuf := VoiceMicReact.component_run_undisturbed (r.step .micGranted)
      r.browser.sessions.length _ es hg.2 (by simp) hres
    rw [hg.1, List.nil_append] at hbuf
    have hurl : ((r.step .micGranted).run es).apiUrl = r.apiUrl := by
      rw [VoiceMicReact.component_run_apiUrl, VoiceMicReact.component_step_apiUrl]
    generalize (r.step .micGranted).run es = v at hrk hbuf hurl
    simp [VoiceMicReact.step, hrk, hrs, VoiceMicReact.onstop, VoiceMicReact.sendAudio,
      Browser.assemble, Browser.fetch, Browser.stopTracks, Browser.stopDelivered,
      Browser.requests, hbuf, hurl, Blob.new]
  · have hg : (e.step .micGranted).audioChunks = []
        ∧ (e.step .micGranted).browser.sessions[e.browser.sessions.length]?
            = some { live := true, state := .recording } := by
      simp [VoiceMic.step, he, VoiceMic.startRecordingResume, VoiceMic.updateUI,
        Browser.settleMic, Browser.newRecorder, Browser.recorderStart, updateAt_concat]
    have hbuf := VoiceMic.element_run_undisturbed (e.step .micGranted)
      e.browser.sessions.length _ es hg.2 (by simp) hees
    rw [hg.1, List.nil_append] at hbuf
    have hurl : ((e.step .micGranted).run es).apiUrl = e.apiUrl := by
      rw [VoiceMic.element_run_apiUrl, VoiceMic.element_step_apiUrl]
    generalize (e.step .micGranted).run es = v at hek hbuf hurl
    simp [VoiceMic.step, hek, hes, VoiceMic.onstop, VoiceMic.sendAudio,
      Browser.assemble, Browser.fetch, Browser.stopTracks, Browser.stopDelivered,
      Browser.requests, hbuf, hurl, Blob.new]

theorem package_of_undisturbed_session_witness :
    (demoReactAsking.browser.pendingMic ≠ 0 ∧ demoElementAsking.browser.pendingMic ≠ 0
      ∧ demoReactAsking.audioChunksRef = [⟨[1, 2], "audio/webm"⟩]
      ∧ (∀ ev ∈ demoSessionEvents,
          ev.undisturbing demoReactAsking.browser.sessions.length = true)
      ∧ ((demoReactAsking.step .micGranted).run
          demoSessionEvents).browser.sessions[demoReactAsking.browser.sessions.length]?
        = some { live := true, state := .stopping })
    ∧ (((demoReactAsking.step .micGranted).run demoSessionEvents).step
        (.stop demoReactAsking.browser.sessions.length)).browser.requests
      = ((demoReactAsking.step .micGranted).run demoSessionEvents).browser.requests ++
        [{ url := demoReactAsking.apiUrl ++ "/voice/query", method := "POST",
           body := [FormEntry.mk "audio"
             { content :=
                 ((fragmentsOf demoReactAsking.browser.sessions.length
                     demoSessionEvents).map Blob.content).flatten,
               type := "audio/webm" }
             "recording.webm"] }] :=
  ⟨⟨by decide, by decide, by decide, by decide, by decide⟩,
   (package_of_undisturbed_session demoSessionEvents demoReactAsking demoElementAsking
      { live := true, state := .stopping } { live := true, state := .stopping }
      (by decide) (by decide) (by decide) (by decide) (by decide) rfl (by decide) rfl).1⟩

/-! ## The component's props stay what they are -/

theorem VoiceMicReact.step_callbacks (w : VoiceMicReact) (ev : Event) :
    (w.step ev).onTranscript = w.onTranscript ∧ (w.step ev).onResponse = w.onResponse
    ∧ (w.step ev).onError = w.onError := by
  cases ev with
  | click =>
    simp only [VoiceMicReact.step, VoiceMicReact.render]
    cases hrec : w.isRecording <;> simp [VoiceMicReact.startRecording, VoiceMicReact.stopRecording]
    cases w.mediaRecorderRef <;> simp [hrec]
  | micGranted =>
    simp only [VoiceMicReact.step]
    split <;> simp [VoiceMicReact.startRecordingResume]
  | micDenied =>
    simp only [VoiceMicReact.step]
    split <;> simp [VoiceMicReact.startRecordingResume, VoiceMicReact.handleError]
  | dataavailable k data =>
    simp only [VoiceMicReact.step]
    split
    · split <;> simp [VoiceMicReact.ondataavailable]
    · simp
  | stop k =>
    simp only [VoiceMicReact.step]
    split
    · split <;> simp [VoiceMicReact.onstop, VoiceMicReact.sendAudio]
    · simp
  | fetchSettled i outcome =>
    simp only [VoiceMicReact.step]
    split
    · split
      · obtain ⟨_, _, _, _, _, _, h7, h8, h9⟩ := VoiceMicReact.sendAudioResume_frame
          { w with browser := w.browser.settleFetch i } outcome
        exact ⟨h7, h8, h9⟩
      · simp
    · simp

theorem VoiceMicReact.run_callbacks (w : VoiceMicReact) (es : List Event) :
    (w.run es).onTranscript = w.onTranscript ∧ (w.run es).onResponse = w.onResponse
    ∧ (w.run es).onError = w.onError := by
  induction es generalizing w with
  | nil => exact ⟨rfl, rfl, rfl⟩
  | cons ev es ih =>
    have h := ih (w.step ev)
    have h1 := VoiceMicReact.step_callbacks w ev
    simp only [VoiceMicReact.run, List.foldl_cons] at h ⊢
    exact ⟨h.1.trans h1.1, h.2.1.trans h1.2.1, h.2.2.trans h1.2.2⟩

/-! ## Successful round trip -/

/-- C1, as the claim states it, fails: when the backend returns an empty transcript
after a complete recording cycle, no transcript line is rendered at all (and likewise
no response line for an empty response text); and when the host's `onTranscript`
throws, `onResponse` is not invoked and `onError` is. -/
theorem empty_transcript_renders_no_line :
    ((VoiceMicReact.mount { apiUrl := some "http://localhost:9000" } Browser.fresh).run
        (sessionEvents 0 [⟨[1], "audio/webm"⟩] []
          ++ [.fetchSettled 0 (.response true
                (.ok { transcript := "", response_text := "It is 3 PM",
                       audio_url := "/audio/abc.mp3" }))])).render.transcriptLine
      = none
    ∧ ((VoiceMicReact.mount { apiUrl := some "http://localhost:9000" } Browser.fresh).run
        (sessionEvents 0 [⟨[1], "audio/webm"⟩] []
          ++ [.fetchSettled 0 (.response true
                (.ok { transcript := "", response_text := "It is 3 PM",
                       audio_url := "/audio/abc.mp3" }))])).render.transcriptLine
      ≠ some ("You: " ++ "")
    ∧ ((VoiceMicReact.mount { apiUrl := some "http://localhost:9000" } Browser.fresh).run
        (sessionEvents 0 [⟨[1], "audio/webm"⟩] []
          ++ [.fetchSettled 0 (.response true
                (.ok { transcript := "what time is it", response_text := "",
                       audio_url := "/audio/abc.mp3" }))])).render.responseLine
      ≠ some ("Assistant: " ++ "")
    ∧ ((VoiceMicReact.mount
          { apiUrl := some "http://localhost:9000",
            onTranscript := some (fun _ => some "listener failed") } Browser.fresh).run
        (sessionEvents 0 [⟨[1], "audio/webm"⟩] []
          ++ [.fetchSettled 0 (.response true
                (.ok { transcript := "what time is it", response_text := "It is 3 PM",
                       audio_url := "/audio/abc.mp3" }))])).calls
      = [Callback.onTranscript "what time is it", Callback.onError "listener failed"] := by
  decide

/-- C1, amended: for every base URL `b` and every Backend Result `d`, on a mounted
component configured with `b` that is not recording and whose callbacks `onTranscript`
and `onResponse` return normally for the transcript and the response text, after a
complete recording cycle
(one capture session, then the successful answer to its request) the status is
"Ready"; the transcript line reads "You: " followed by the transcript when the
transcript is not empty and is not rendered when it is empty; the response line reads
"Assistant: " followed by the response text when that is not empty and is not rendered
when it is empty; the playback element's source is the plain concatenation of `b` and
the audio URL; and the callbacks made during the cycle are exactly `onTranscript` with
the transcript, then `onResponse` with the response text. -/
theorem react_round_trip (b : String) (d : BackendResult) (before after : List Blob)
    (r : VoiceMicReact) (player : AudioElement)
    (hb : r.apiUrl = b) (hrec : r.isRecording = false)
    (hplayer : r.audioPlayerRef = some player)
    (hT : r.onTranscript d.transcript = none) (hR : r.onResponse d.response_text = none) :
    ((r.run (sessionEvents r.browser.sessions.length before after)).step
        (.fetchSettled r.browser.fetches.length (.response true (.ok d)))).status = "Ready"
    ∧ ((r.run (sessionEvents r.browser.sessions.length before after)).step
        (.fetchSettled r.browser.fetches.length (.response true (.ok d)))).render.statusLine
      = "Ready"
    ∧ (d.transcript ≠ "" →
        ((r.run (sessionEvents r.browser.sessions.length before after)).step
          (.fetchSettled r.browser.fetches.length
            (.response true (.ok d)))).render.transcriptLine
        = some ("You: " ++ d.transcript))
    ∧ (d.transcript = "" →
        ((r.run (sessionEvents r.browser.sessions.length before after)).step
          (.fetchSettled r.browser.fetches.length
            (.response true (.ok d)))).render.transcriptLine
        = none)
    ∧ (d.response_text ≠ "" →
        ((r.run (sessionEvents r.browser.sessions.length before after)).step
          (.fetchSettled r.browser.fetches.length
            (.response true (.ok d)))).render.responseLine
        = some ("Assistant: " ++ d.response_text))
    ∧ (d.response_text = "" →
        ((r.run (sessionEvents r.browser.sessions.length before after)).step
          (.fetchSettled r.browser.fetches.length
            (.response true (.ok d)))).render.responseLine
        = none)
    ∧ ((r.run (sessionEvents r.browser.sessions.length before after)).step
        (.fetchSettled r.browser.fetches.length (.response true (.ok d)))).audioPlayerRef
      = some { src := b ++ d.audio_url, plays := player.plays + 1 }
    ∧ ((r.run (sessionEvents r.browser.sessions.length before after)).step
        (.fetchSettled r.browser.fetches.length (.response true (.ok d)))).calls
      = r.calls ++ [Callback.onTranscript d.transcript, Callback.onResponse d.response_text] := by
  obtain ⟨hf, hc, ha, _, hp⟩ := VoiceMicReact.component_run_session r before after hrec
  have hcb : (r.run (sessionEvents r.browser.sessions.length before after)).onTranscript
        = r.onTranscript
      ∧ (r.run (sessionEvents r.browser.sessions.length before after)).onResponse
        = r.onResponse :=
    ⟨(VoiceMicReact.run_callbacks r _).1, (VoiceMicReact.run_callbacks r _).2.1⟩
  generalize r.run (sessionEvents r.browser.sessions.length before after) = v
    at hf hc ha hp hcb
  have hT2 : v.onTranscript d.transcript = none := by rw [hcb.1]; exact hT
  have hR2 : v.onResponse d.response_text = none := by rw [hcb.2]; exact hR
  have hget : v.browser.fetches[r.browser.fetches.length]?
      = some (Fetch.mk
          { url := r.apiUrl ++ "/voice/query", method := "POST",
            body := [FormEntry.mk "audio" (Blob.new (before ++ after) "audio/webm")
                       "recording.webm"] }
          true) := by
    rw [hf]; simp
  simp [VoiceMicReact.step, hget, VoiceMicReact.sendAudioResume, VoiceMicReact.sendAudioTry,
    VoiceMicReact.handleResponse, VoiceMicReact.render, VoiceMicReact.line, hp, hplayer, hc, ha,
    hb, hT2, hR2]

theorem react_round_trip_witness :
    ((VoiceMicReact.mount { apiUrl := some "http://localhost:9000" } Browser.fresh).apiUrl
        = "http://localhost:9000"
      ∧ (VoiceMicReact.mount { apiUrl := some "http://localhost:9000" } Browser.fresh).isRecording = false
      ∧ (VoiceMicReact.mount { apiUrl := some "http://localhost:9000" } Browser.fresh).audioPlayerRef
        = some { src := "", plays := 0 }
      ∧ (VoiceMicReact.mount { apiUrl := some "http://localhost:9000" }
          Browser.fresh).onTranscript "what time is it" = none
      ∧ (VoiceMicReact.mount { apiUrl := some "http://localhost:9000" }
          Browser.fresh).onResponse "It is 3 PM" = none)
    ∧ (((VoiceMicReact.mount { apiUrl := some "http://localhost:9000" } Browser.fresh).run
          (sessionEvents
            (VoiceMicReact.mount { apiUrl := some "http://localhost:9000" }
              Browser.fresh).browser.sessions.length [⟨[1], "audio/webm"⟩] [])).step
        (.fetchSettled
          (VoiceMicReact.mount { apiUrl := some "http://localhost:9000" } Browser.fresh).browser.fetches.length
          (.response true
            (.ok { transcript := "what time is it", response_text := "It is 3 PM",
                   audio_url := "/audio/abc.mp3" })))).audioPlayerRef
      = some { src := "http://localhost:9000" ++ "/audio/abc.mp3", plays := 0 + 1 } :=
  ⟨⟨rfl, rfl, rfl, rfl, rfl⟩,
   (react_round_trip "http://localhost:9000"
      { transcript := "what time is it", response_text := "It is 3 PM",
        audio_url := "/audio/abc.mp3" }
      [⟨[1], "audio/webm"⟩] []
      (VoiceMicReact.mount { apiUrl := some "http://localhost:9000" } Browser.fresh)
      { src := "", plays := 0 } rfl rfl rfl rfl rfl).2.2.2.2.2.2.1⟩

/-- An event leaves the transcript and response regions as they are, or it is a
successful result and both are displayed afterwards. -/
theorem VoiceMic.step_regions (w : VoiceMic) (ev : Event) :
    ((w.step ev).transcriptEl = w.transcriptEl ∧ (w.step ev).responseEl = w.responseEl)
    ∨ (ev.isSuccess = true ∧ (w.step ev).transcriptEl.display = "block"
        ∧ (w.step ev).responseEl.display = "block") := by
  cases ev with
  | click =>
    left
    simp only [VoiceMic.step, VoiceMic.toggleRecording]
    cases hrec : w.isRecording <;> simp [VoiceMic.startRecording, VoiceMic.stopRecording]
    cases w.mediaRecorder <;> simp [hrec, VoiceMic.updateUI]
  | micGranted =>
    left
    simp only [VoiceMic.step]
    split <;> simp [VoiceMic.startRecordingResume, VoiceMic.updateUI]
  | micDenied =>
    left
    simp only [VoiceMic.step]
    split <;> simp [VoiceMic.startRecordingResume, VoiceMic.handleError, VoiceMic.updateUI]
  | dataavailable k data =>
    left
    simp only [VoiceMic.step]
    split
    · split <;> simp [VoiceMic.ondataavailable]
    · simp
  | stop k =>
    left
    simp only [VoiceMic.step]
    split
    · split <;> simp [VoiceMic.onstop, VoiceMic.sendAudio]
    · simp
  | fetchSettled i outcome =>
    simp only [VoiceMic.step]
    split
    · split
      · cases outcome with
        | rejected m =>
          left
          simp [VoiceMic.sendAudioResume, VoiceMic.sendAudioTry, VoiceMic.handleError,
            VoiceMic.updateUI]
        | response ok json =>
          cases ok with
          | false =>
            left
            simp [VoiceMic.sendAudioResume, VoiceMic.sendAudioTry, VoiceMic.handleError,
              VoiceMic.updateUI]
          | true =>
            cases json with
            | error m =>
              left
              simp [VoiceMic.sendAudioResume, VoiceMic.sendAudioTry, VoiceMic.handleError,
                VoiceMic.updateUI]
            | ok data =>
              right
              simp [VoiceMic.sendAudioResume, VoiceMic.sendAudioTry, VoiceMic.handleResponse,
                VoiceMic.updateUI, Event.isSuccess]
      · left; simp
    · left; simp

theorem VoiceMic.run_regions_hidden (w : VoiceMic) (es : List Event)
    (hes : ∀ ev ∈ es, ev.isSuccess = false) :
    (w.run es).transcriptEl = w.transcriptEl ∧ (w.run es).responseEl = w.responseEl := by
  induction es generalizing w with
  | nil => simp [VoiceMic.run]
  | cons ev es ih =>
    have h := ih (w.step ev) (fun x hx => hes x (List.mem_cons_of_mem _ hx))
    simp only [VoiceMic.run, List.foldl_cons] at h ⊢
    rcases VoiceMic.step_regions w ev with h1 | h1
    · rw [h.1, h.2, h1.1, h1.2]; exact ⟨rfl, rfl⟩
    · have := hes ev (List.mem_cons_self _ _)
      rw [this] at h1
      exact absurd h1.1 (by decide)

theorem VoiceMic.run_regions_shown (w : VoiceMic) (es : List Event)
    (ht : w.transcriptEl.display = "block") (hr : w.responseEl.display = "block") :
    (w.run es).transcriptEl.display = "block" ∧ (w.run es).responseEl.display = "block" := by
  induction es generalizing w with
  | nil => exact ⟨ht, hr⟩
  | cons ev es ih =>
    have key : (w.step ev).transcriptEl.display = "block"
        ∧ (w.step ev).responseEl.display = "block" := by
      rcases VoiceMic.step_regions w ev with h1 | h1
      · rw [h1.1, h1.2]; exact ⟨ht, hr⟩
      · exact h1.2
    have h := ih (w.step ev) key.1 key.2
    simpa only [VoiceMic.run, List.foldl_cons] using h

/-- C2: for the custom element and every Backend Result `d`: the transcript and
response regions are hidden at construction and stay hidden as long as no successful
result has arrived; on an element that is not recording, a complete recording cycle
(one capture session, then the successful answer to its request) dispatches exactly a
`transcript` event with the transcript and then a `response` event with the response
text, and no `error` event, and leaves both regions displayed with the texts "You: "
and "Assistant: " followed by the transcript and the response text; and once the
regions are displayed, no sequence of later events, error paths included, hides them. -/
theorem element_round_trip (d : BackendResult) (before after : List Blob)
    (api : Option String) (b : Browser) (e : VoiceMic) (hrec : e.isRecording = false) :
    ((VoiceMic.create api b).transcriptEl.display = "none"
      ∧ (VoiceMic.create api b).responseEl.display = "none")
    ∧ (∀ es : List Event, (∀ ev ∈ es, ev.isSuccess = false) →
        ((VoiceMic.create api b).run es).transcriptEl.display = "none"
        ∧ ((VoiceMic.create api b).run es).responseEl.display = "none")
    ∧ (((e.run (sessionEvents e.browser.sessions.length before after)).step
          (.fetchSettled e.browser.fetches.length (.response true (.ok d)))).dispatched
        = e.dispatched ++
          [CustomEvent.mk "transcript" d.transcript, CustomEvent.mk "response" d.response_text]
      ∧ ((e.run (sessionEvents e.browser.sessions.length before after)).step
          (.fetchSettled e.browser.fetches.length (.response true (.ok d)))).transcriptEl
        = { className := "transcript", textContent := "You: " ++ d.transcript,
            display := "block" }
      ∧ ((e.run (sessionEvents e.browser.sessions.length before after)).step
          (.fetchSettled e.browser.fetches.length (.response true (.ok d)))).responseEl
        = { className := "response", textContent := "Assistant: " ++ d.response_text,
            display := "block" })
    ∧ (∀ es : List Event,
        (((e.run (sessionEvents e.browser.sessions.length before after)).step
            (.fetchSettled e.browser.fetches.length
              (.response true (.ok d)))).run es).transcriptEl.display = "block"
        ∧ (((e.run (sessionEvents e.browser.sessions.length before after)).step
            (.fetchSettled e.browser.fetches.length
              (.response true (.ok d)))).run es).responseEl.display = "block") := by
  obtain ⟨hf, hd, _, _⟩ := VoiceMic.element_run_session e before after hrec
  generalize e.run (sessionEvents e.browser.sessions.length before after) = v at hf hd
  have hget : v.browser.fetches[e.browser.fetches.length]?
      = some (Fetch.mk
          { url := e.apiUrl ++ "/voice/query", method := "POST",
            body := [FormEntry.mk "audio" (Blob.new (before ++ after) "audio/webm")
                       "recording.webm"] }
          true) := by
    rw [hf]; simp
  have hcycle : (v.step (.fetchSettled e.browser.fetches.length (.response true (.ok d)))).dispatched
        = e.dispatched ++
          [CustomEvent.mk "transcript" d.transcript, CustomEvent.mk "response" d.response_text]
      ∧ (v.step (.fetchSettled e.browser.fetches.length (.response true (.ok d)))).transcriptEl
        = { className := "transcript", textContent := "You: " ++ d.transcript,
            display := "block" }
      ∧ (v.step (.fetchSettled e.browser.fetches.length (.response true (.ok d)))).responseEl
        = { className := "response", textContent := "Assistant: " ++ d.response_text,
            display := "block" } := by
    simp [VoiceMic.step, hget, VoiceMic.sendAudioResume, VoiceMic.sendAudioTry,
      VoiceMic.handleResponse, VoiceMic.updateUI, hd]
  refine ⟨⟨rfl, rfl⟩, ?_, hcycle, ?_⟩
  · intro es hes
    obtain ⟨h1, h2⟩ := VoiceMic.run_regions_hidden (VoiceMic.create api b) es hes
    rw [h1, h2]; exact ⟨rfl, rfl⟩
  · intro es
    exact VoiceMic.run_regions_shown _ es (by rw [hcycle.2.1]) (by rw [hcycle.2.2])

theorem element_round_trip_witness :
    (VoiceMic.create (some "http://localhost:9000") Browser.fresh).isRecording = false
    ∧ (((VoiceMic.create (some "http://localhost:9000") Browser.fresh).run
          (sessionEvents
            (VoiceMic.create (some "http://localhost:9000")
              Browser.fresh).browser.sessions.length [⟨[1], "audio/webm"⟩] [])).step
        (.fetchSettled
          (VoiceMic.create (some "http://localhost:9000") Browser.fresh).browser.fetches.length
          (.response true
            (.ok { transcript := "what time is it", response_text := "It is 3 PM",
                   audio_url := "/audio/abc.mp3" })))).dispatched
      = (VoiceMic.create (some "http://localhost:9000") Browser.fresh).dispatched ++
          [CustomEvent.mk "transcript" "what time is it", CustomEvent.mk "response" "It is 3 PM"] :=
  ⟨rfl,
   (element_round_trip
      { transcript := "what time is it", response_text := "It is 3 PM",
        audio_url := "/audio/abc.mp3" }
      [⟨[1], "audio/webm"⟩] [] none Browser.fresh
      (VoiceMic.create (some "http://localhost:9000") Browser.fresh) rfl).2.2.1.1⟩

/-! ## The two packagings side by side -/

theorem error_text_ne_processing (m : String) : ("Error: " ++ m = "Processing...") ↔ False := by
  constructor
  · intro h
    have := congrArg String.data h
    simp [String.data_append] at this
  · intro h; exact h.elim

/-- What the continuation of the element's `sendAudio` leaves alone, and the state it
shows afterwards. -/
theorem VoiceMic.settled_frame (w : VoiceMic) (o : FetchOutcome) :
    ∃ w2, VoiceMic.sendAudioResume w o = Except.ok w2
      ∧ w2.browser = w.browser ∧ w2.audioChunks = w.audioChunks
      ∧ w2.isRecording = w.isRecording ∧ w2.mediaRecorder = w.mediaRecorder
      ∧ w2.apiUrl = w.apiUrl
      ∧ w2.phase = (if w.isRecording then Phase.recording else Phase.idle) := by
  simp only [VoiceMic.sendAudioResume]
  cases VoiceMic.sendAudioTry o with
  | error m =>
    refine ⟨_, rfl, rfl, rfl, rfl, rfl, rfl, ?_⟩
    simp [VoiceMic.handleError, VoiceMic.updateUI, VoiceMic.phase, error_text_ne_processing]
  | ok d =>
    refine ⟨_, rfl, rfl, rfl, rfl, rfl, rfl, ?_⟩
    simp [VoiceMic.handleResponse, VoiceMic.updateUI, VoiceMic.phase]

theorem VoiceMicReact.phase_of_ready (w : VoiceMicReact) (h : w.status = "Ready") :
    w.phase = (if w.isRecording then Phase.recording else Phase.idle) := by
  simp [VoiceMicReact.phase, h]

theorem Sim.step_preserved {r : VoiceMicReact} {e : VoiceMic} (h : Sim r e) (ev : Event) :
    Sim (r.step ev) (e.step ev) := by
  obtain ⟨h1, h2, h3, h4, h5, h7⟩ := h
  cases ev with
  | click =>
    simp only [VoiceMicReact.step, VoiceMicReact.render, VoiceMic.step, VoiceMic.toggleRecording,
      h1]
    cases hrec : e.isRecording
    · simp only [Bool.false_eq_true, ↓reduceIte, VoiceMicReact.startRecording,
        VoiceMic.startRecording]
      refine ⟨by simp [h1, hrec], h2, h3, h4, by simp [h5], ?_⟩
      simpa [VoiceMicReact.phase, VoiceMic.phase] using h7
    · simp only [↓reduceIte, VoiceMicReact.stopRecording, VoiceMic.stopRecording, h1, h2, hrec]
      cases hm : e.mediaRecorder with
      | none =>
        refine ⟨by simp [h1, hrec], by simp [h2, hm], h3, h4, h5, ?_⟩
        simpa [VoiceMicReact.phase, VoiceMic.phase] using h7
      | some k =>
        refine ⟨rfl, by simp [h2, hm, VoiceMic.updateUI], h3, h4,
          by simp [h5, VoiceMic.updateUI], ?_⟩
        simp [VoiceMicReact.phase, VoiceMic.phase, VoiceMic.updateUI]
  | micGranted =>
    simp only [VoiceMicReact.step, VoiceMic.step, h5]
    split
    · exact ⟨h1, h2, h3, h4, h5, h7⟩
    · simp only [VoiceMicReact.startRecordingResume, VoiceMic.startRecordingResume, ↓reduceIte]
      refine ⟨rfl, by simp [VoiceMic.updateUI, h5], by simp [VoiceMic.updateUI], h4,
        by simp [VoiceMic.updateUI, h5], ?_⟩
      simp [VoiceMicReact.phase, VoiceMic.phase, VoiceMic.updateUI]
  | micDenied =>
    simp only [VoiceMicReact.step, VoiceMic.step, h5]
    split
    · exact ⟨h1, h2, h3, h4, h5, h7⟩
    · simp only [VoiceMicReact.startRecordingResume, VoiceMic.startRecordingResume,
        Bool.false_eq_true, ↓reduceIte, VoiceMicReact.handleError, VoiceMic.handleError,
        VoiceMic.updateUI]
      refine ⟨h1, h2, h3, h4, by simp [h5], ?_⟩
      simp [VoiceMicReact.phase, VoiceMic.phase, h1, error_text_ne_processing]
  | dataavailable k data =>
    simp only [VoiceMicReact.step, VoiceMic.step, h5]
    split
    · split
      · exact ⟨h1, h2, h3, h4, h5, h7⟩
      · refine ⟨h1, h2, by simp [VoiceMicReact.ondataavailable, VoiceMic.ondataavailable, h3],
          h4, h5, ?_⟩
        simpa [VoiceMicReact.phase, VoiceMic.phase, VoiceMicReact.ondataavailable,
          VoiceMic.ondataavailable] using h7
    · exact ⟨h1, h2, h3, h4, h5, h7⟩
  | stop k =>
    simp only [VoiceMicReact.step, VoiceMic.step, h5]
    split
    · split
      · refine ⟨h1, h2, h3, h4, ?_, ?_⟩
        · simp [VoiceMicReact.onstop, VoiceMic.onstop, VoiceMicReact.sendAudio,
            VoiceMic.sendAudio, h3, h4, h5]
        · simpa [VoiceMicReact.phase, VoiceMic.phase, VoiceMicReact.onstop, VoiceMic.onstop,
            VoiceMicReact.sendAudio, VoiceMic.sendAudio] using h7
      · exact ⟨h1, h2, h3, h4, h5, h7⟩
    · exact ⟨h1, h2, h3, h4, h5, h7⟩
  | fetchSettled i outcome =>
    simp only [VoiceMicReact.step, VoiceMic.step, h5]
    split
    · split
      · obtain ⟨a1, a2, a3, a4, a5, a6, _⟩ := VoiceMicReact.sendAudioResume_frame
          { r with browser := e.browser.settleFetch i } outcome
        obtain ⟨w2, b0, b1, b2, b3, b4, b5, b6⟩ := VoiceMic.settled_frame
          { e with browser := e.browser.settleFetch i } outcome
        rw [b0]
        refine ⟨a3.trans (h1.trans b3.symm), a4.trans (h2.trans b4.symm),
          a2.trans (h3.trans b2.symm), a5.trans (h4.trans b5.symm), a1.trans b1.symm, ?_⟩
        rw [VoiceMicReact.phase_of_ready _ a6, b6, a3]
        simp [h1]
      · exact ⟨h1, h2, h3, h4, h5, h7⟩
    · exact ⟨h1, h2, h3, h4, h5, h7⟩

theorem SimOut.step_out {r : VoiceMicReact} {e : VoiceMic} (h : SimOut r e) (ev : Event) :
    SimOut (r.step ev) (e.step ev) := by
  obtain ⟨hsim, h6, hT, hR, hE⟩ := h
  have hcb := VoiceMicReact.step_callbacks r ev
  refine ⟨hsim.step_preserved ev, ?_, by rw [hcb.1]; exact hT, by rw [hcb.2.1]; exact hR,
    by rw [hcb.2.2]; exact hE⟩
  obtain ⟨h1, h2, h3, h4, h5, h7⟩ := hsim
  cases ev with
  | click =>
    simp only [VoiceMicReact.step, VoiceMicReact.render, VoiceMic.step, VoiceMic.toggleRecording,
      h1]
    cases hrec : e.isRecording
    · simpa [VoiceMicReact.startRecording, VoiceMic.startRecording] using h6
    · simp only [↓reduceIte, VoiceMicReact.stopRecording, VoiceMic.stopRecording, h1, h2, hrec]
      cases hm : e.mediaRecorder with
      | none => simpa using h6
      | some k => simpa [VoiceMic.updateUI] using h6
  | micGranted =>
    simp only [VoiceMicReact.step, VoiceMic.step, h5]
    split
    · exact h6
    · simpa [VoiceMicReact.startRecordingResume, VoiceMic.startRecordingResume,
        VoiceMic.updateUI] using h6
  | micDenied =>
    simp only [VoiceMicReact.step, VoiceMic.step, h5]
    split
    · exact h6
    · simp [VoiceMicReact.startRecordingResume, VoiceMic.startRecordingResume,
        VoiceMicReact.handleError, VoiceMic.handleError, VoiceMic.updateUI, h6,
        Callback.toEvent]
  | dataavailable k data =>
    simp only [VoiceMicReact.step, VoiceMic.step, h5]
    split
    · split
      · exact h6
      · simpa [VoiceMicReact.ondataavailable, VoiceMic.ondataavailable] using h6
    · exact h6
  | stop k =>
    simp only [VoiceMicReact.step, VoiceMic.step, h5]
    split
    · split
      · simpa [VoiceMicReact.onstop, VoiceMic.onstop, VoiceMicReact.sendAudio,
          VoiceMic.sendAudio] using h6
      · exact h6
    · exact h6
  | fetchSettled i outcome =>
    simp only [VoiceMicReact.step, VoiceMic.step, h5]
    split
    · split
      · have hT0 : VoiceMicReact.sendAudioTry outcome = VoiceMic.sendAudioTry outcome := rfl
        simp only [VoiceMicReact.sendAudioResume, VoiceMic.sendAudioResume, hT0]
        cases VoiceMic.sendAudioTry outcome with
        | error m =>
          simp [VoiceMicReact.handleError, VoiceMic.handleError, VoiceMic.updateUI, h6,
            Callback.toEvent]
        | ok data =>
          have hthrown : (VoiceMicReact.handleResponse
              { r with browser := e.browser.settleFetch i } data).thrown = none := by
            simp only [VoiceMicReact.handleResponse]
            cases r.audioPlayerRef <;> simp [hT, hR]
          simp only [hthrown]
          simp only [VoiceMicReact.handleResponse, VoiceMic.handleResponse, VoiceMic.updateUI]
          cases r.audioPlayerRef <;> simp [hT, h6, Callback.toEvent]
      · exact h6
    · exact h6

theorem SimOut.observe_eq {r : VoiceMicReact} {e : VoiceMic} (h : SimOut r e) :
    r.observe = e.observe := by
  obtain ⟨⟨h1, _, _, _, h5, _⟩, h6, _⟩ := h
  simp [VoiceMicReact.observe, VoiceMic.observe, h1, h5, h6]

theorem SimOut.set_attribute {r : VoiceMicReact} {e : VoiceMic} (h : SimOut r e)
    (name value : String) : SimOut r (e.setAttribute name value) := by
  simp only [VoiceMic.setAttribute]
  split
  · exact h
  · exact h

theorem SimOut.run_host {r : VoiceMicReact} {e : VoiceMic} (h : SimOut r e)
    (acts : List HostAction) :
    SimOut (r.run (HostAction.events acts)) (e.runHost acts) := by
  induction acts generalizing r e with
  | nil => exact h
  | cons a acts ih =>
    cases a with
    | event ev =>
      have := ih (h.step_out ev)
      simpa only [VoiceMicReact.run, VoiceMic.runHost, HostAction.events, List.foldl_cons,
        VoiceMic.act] using this
    | setAttribute name value =>
      have := ih (h.set_attribute name value)
      simpa only [VoiceMicReact.run, VoiceMic.runHost, HostAction.events, List.foldl_cons,
        VoiceMic.act] using this

theorem VoiceMicReact.mount_returns (props : Props) (hprops : props.returnNormally)
    (b : Browser) :
    (∀ text, (VoiceMicReact.mount props b).onTranscript text = none)
    ∧ (∀ text, (VoiceMicReact.mount props b).onResponse text = none)
    ∧ (∀ text, (VoiceMicReact.mount props b).onError text = none) := by
  obtain ⟨hT, hR, hE⟩ := hprops
  refine ⟨?_, ?_, ?_⟩
  · intro text
    cases h : props.onTranscript with
    | none => simp [VoiceMicReact.mount, h, noop]
    | some f => simpa [VoiceMicReact.mount, h] using hT f h text
  · intro text
    cases h : props.onResponse with
    | none => simp [VoiceMicReact.mount, h, noop]
    | some f => simpa [VoiceMicReact.mount, h] using hR f h text
  · intro text
    cases h : props.onError with
    | none => simp [VoiceMicReact.mount, h, noop]
    | some f => simpa [VoiceMicReact.mount, h] using hE f h text

/-- C10, as the claim states it, fails in three ways. Configured with the empty base
URL, the component posts to "/voice/query" and the element to the default backend.
When the element receives its `api` attribute after its constructor has run, the
component posts to the configured base and the element to the default backend. And
when the host's `onTranscript` throws, the component notifies transcript and then
error, while the element, for the same events, notifies transcript and then response. -/
theorem packagings_differ :
    (((VoiceMicReact.mount { apiUrl := some "" } Browser.fresh).run
        [.click, .micGranted, .click, .stop 0]).observe.requests.map Request.url
      = ["/voice/query"]
    ∧ ((VoiceMic.create (some "") Browser.fresh).run
        [.click, .micGranted, .click, .stop 0]).observe.requests.map Request.url
      = ["http://localhost:9000/voice/query"])
    ∧ (((VoiceMicReact.mount { apiUrl := some "http://backend" } Browser.fresh).run
        [.click, .micGranted, .click, .stop 0]).observe.requests.map Request.url
      = ["http://backend/voice/query"]
    ∧ ((VoiceMic.create none Browser.fresh).runHost
        [.setAttribute "api" "http://backend", .event .click, .event .micGranted,
         .event .click, .event (.stop 0)]).observe.requests.map Request.url
      = ["http://localhost:9000/voice/query"])
    ∧ (((VoiceMicReact.mount
          { apiUrl := some "http://localhost:9000",
            onTranscript := some (fun _ => some "listener failed") } Browser.fresh).run
        (sessionEvents 0 [⟨[1], "audio/webm"⟩] []
          ++ [.fetchSettled 0 (.response true
                (.ok { transcript := "what time is it", response_text := "It is 3 PM",
                       audio_url := "/audio/abc.mp3" }))])).observe.notifications
      = [CustomEvent.mk "transcript" "what time is it", CustomEvent.mk "error" "listener failed"]
    ∧ ((VoiceMic.create (some "http://localhost:9000") Browser.fresh).run
        (sessionEvents 0 [⟨[1], "audio/webm"⟩] []
          ++ [.fetchSettled 0 (.response true
                (.ok { transcript := "what time is it", response_text := "It is 3 PM",
                       audio_url := "/audio/abc.mp3" }))])).observe.notifications
      = [CustomEvent.mk "transcript" "what time is it", CustomEvent.mk "response" "It is 3 PM"]) := by
  decide

/-- C10, amended: let the component receive the base URL `base`, not the empty
string, as its prop `apiUrl` (the props staying the ones it was mounted with), and let `getAttribute('api')` return the same `base`
while the element's constructor runs (or let the prop be left out and the attribute be
absent at that time); let the callbacks passed to the component never throw. Then for
every sequence of user and platform events, and whatever attributes the host sets on
the element in between, the component and the element show the same recording flag,
have issued the same requests (URL, method, field name, filename, package) and have
emitted the same notifications in the same order, a callback `onTranscript` /
`onResponse` / `onError` counting as the event `transcript` / `response` / `error` with
the same payload. -/
theorem packagings_agree (base : String) (hbase : base ≠ "") (props : Props)
    (hprops : props.returnNormally) (b : Browser) (acts : List HostAction) :
    ((VoiceMicReact.mount { props with apiUrl := some base } b).run
        (HostAction.events acts)).observe
      = ((VoiceMic.create (some base) b).runHost acts).observe
    ∧ ((VoiceMicReact.mount { props with apiUrl := none } b).run
        (HostAction.events acts)).observe
      = ((VoiceMic.create none b).runHost acts).observe := by
  constructor
  · apply SimOut.observe_eq
    apply SimOut.run_host
    have hcb := VoiceMicReact.mount_returns { props with apiUrl := some base } hprops b
    refine ⟨⟨rfl, rfl, rfl, ?_, rfl, ?_⟩, rfl, hcb.1, hcb.2.1, hcb.2.2⟩
    · simp [VoiceMicReact.mount, VoiceMic.create, orDefault, hbase]
    · simp [VoiceMicReact.phase, VoiceMic.phase, VoiceMicReact.mount, VoiceMic.create]
  · apply SimOut.observe_eq
    apply SimOut.run_host
    have hcb := VoiceMicReact.mount_returns { props with apiUrl := none } hprops b
    refine ⟨⟨rfl, rfl, rfl, rfl, rfl, ?_⟩, rfl, hcb.1, hcb.2.1, hcb.2.2⟩
    simp [VoiceMicReact.phase, VoiceMic.phase, VoiceMicReact.mount, VoiceMic.create]

theorem packagings_agree_witness :
    ("http://localhost:9000" ≠ "" ∧ demoProps.returnNormally)
    ∧ ((VoiceMicReact.mount { demoProps with apiUrl := some "http://localhost:9000" }
          Browser.fresh).run (HostAction.events demoActions)).observe
      = ((VoiceMic.create (some "http://localhost:9000") Browser.fresh).runHost
          demoActions).observe :=
  ⟨⟨by decide, by simp [Props.returnNormally, demoProps]⟩,
   (packagings_agree "http://localhost:9000" (by decide) demoProps
      (by simp [Props.returnNormally, demoProps]) Browser.fresh demoActions).1⟩

/-! ## The toggle cycle -/

theorem getElem?_concat_some {α : Type} {l : List α} {x s : α} {k : Nat}
    (h : (l ++ [x])[k]? = some s) : (k = l.length ∧ s = x) ∨ s ∈ l := by
  rcases Nat.lt_or_ge k l.length with hk | hk
  · right
    rw [List.getElem?_append_left hk] at h
    exact List.getElem?_mem h
  · left
    rw [List.getElem?_append_right hk] at h
    rcases Nat.eq_or_lt_of_le hk with h1 | h1
    · subst h1
      simp at h
      exact ⟨rfl, h.symm⟩
    · have h2 : 1 ≤ k - l.length := by omega
      rw [List.getElem?_eq_none (by simpa using h2)] at h
      exact absurd h (by simp)

theorem AllDead.liveStreams_eq_zero {l : List Session} (h : AllDead l) :
    l.countP (fun s => s.live) = 0 := by
  rw [List.countP_eq_zero]
  intro s hs
  rw [h s hs]
  simp

theorem AllDead.concat_dead {l : List Session} (h : AllDead l) :
    AllDead (l ++ [{ live := false, state := .inactive }]) := by
  intro s hs
  rcases List.mem_append.mp hs with h1 | h1
  · exact h s h1
  · simpa using h1

theorem AllSettled.concat_settled {l : List Fetch} (h : AllSettled l) (req : Request) :
    AllSettled (l ++ [{ request := req, pending := false }]) := by
  intro f hf
  rcases List.mem_append.mp hf with h1 | h1
  · exact h f h1
  · have : f = { request := req, pending := false } := by simpa using h1
    rw [this]

theorem EngineInv.liveStreams_le {isRecording : Bool} {phase : Phase}
    {mediaRecorder : Option Nat} {b : Browser}
    (h : EngineInv isRecording phase mediaRecorder b) : b.liveStreams ≤ 1 := by
  unfold Browser.liveStreams
  rcases h with ⟨_, _, _, hd, _⟩ | ⟨_, _, _, _, old, hs, hd, _⟩ | ⟨_, _, _, _, old, hs, hd⟩
    | ⟨_, _, _, hd, _⟩
  · rw [hd.liveStreams_eq_zero]; omega
  · rw [hs, List.countP_append, hd.liveStreams_eq_zero]; simp
  · rw [hs, List.countP_append, hd.liveStreams_eq_zero]; simp
  · rw [hd.liveStreams_eq_zero]; omega

/-- C4, as the claim states it, fails: two clicks before the microphone request of
the first is answered start two capture sessions, both streams stay unreleased; and a
click while Processing leads from Processing straight to Recording. -/
theorem double_click_starts_two_sessions :
    ((VoiceMic.create none Browser.fresh).run
        [.click, .click, .micGranted, .micGranted]).browser.liveStreams = 2
    ∧ ((VoiceMicReact.mount {} Browser.fresh).run
        [.click, .click, .micGranted, .micGranted]).browser.liveStreams = 2
    ∧ ((VoiceMic.create none Browser.fresh).run
        [.click, .micGranted, .click, .click]).phase = Phase.processing
    ∧ ((VoiceMic.create none Browser.fresh).run
        [.click, .micGranted, .click, .click, .micGranted]).phase = Phase.recording
    ∧ ((VoiceMicReact.mount {} Browser.fresh).run
        [.click, .micGranted, .click, .click]).phase = Phase.processing
    ∧ ((VoiceMicReact.mount {} Browser.fresh).run
        [.click, .micGranted, .click, .click, .micGranted]).phase = Phase.recording
    ∧ (VoiceMic.create none Browser.fresh).alternates
        [.click, .click, .micGranted, .micGranted] = false
    ∧ (VoiceMicReact.mount {} Browser.fresh).alternates
        [.click, .click, .micGranted, .micGranted] = false := by
  decide

theorem cycleStep_self (p : Phase) : cycleStep p p = true := by
  simp [cycleStep]

theorem VoiceMic.Inv.click {w : VoiceMic} (h : w.Inv) (hc : w.clickAllowed = true) :
    (w.step .click).Inv ∧ cycleStep w.phase (w.step .click).phase = true := by
  unfold VoiceMic.Inv at h ⊢
  rcases h with ⟨hrec, hph, hpm, hd, hs⟩ | ⟨hrec, hph, hpm, hs, old, hso, hd, hm⟩
    | ⟨hrec, hph, hpm, hs, old, hso, hd⟩ | ⟨hrec, hph, hpm, hd, oldf, req, hf, hs⟩
  · have hpm0 : w.browser.pendingMic = 0 := by
      simpa [VoiceMic.clickAllowed, hrec, hph] using hc
    have hstep : w.step .click = { w with browser := w.browser.getUserMedia } := by
      simp [VoiceMic.step, VoiceMic.toggleRecording, hrec, VoiceMic.startRecording]
    have hphase : ({ w with browser := w.browser.getUserMedia } : VoiceMic).phase = w.phase :=
      rfl
    rw [hstep, hphase]
    exact ⟨Or.inl ⟨hrec, hph, by simp [Browser.getUserMedia, hpm0], hd, hs⟩, cycleStep_self _⟩
  · have hstep : w.step .click
        = VoiceMic.updateUI
            { w with browser := w.browser.recorderStop old.length, isRecording := false }
            "processing" "Processing..." := by
      simp [VoiceMic.step, VoiceMic.toggleRecording, hrec, VoiceMic.stopRecording, hm]
    rw [hstep]
    refine ⟨Or.inr (Or.inr (Or.inl ⟨rfl, by simp [VoiceMic.phase, VoiceMic.updateUI], ?_, ?_,
      old, ?_, hd⟩)), ?_⟩
    · simpa [VoiceMic.updateUI, Browser.recorderStop] using hpm
    · simpa [VoiceMic.updateUI, Browser.recorderStop] using hs
    · simp [VoiceMic.updateUI, Browser.recorderStop, hso, updateAt_concat]
    · rw [hph]
      simp [VoiceMic.phase, VoiceMic.updateUI, cycleStep, Phase.next]
  · simp [VoiceMic.clickAllowed, hrec, hph] at hc
  · simp [VoiceMic.clickAllowed, hrec, hph] at hc

theorem VoiceMic.Inv.micGranted {w : VoiceMic} (h : w.Inv) :
    (w.step .micGranted).Inv ∧ cycleStep w.phase (w.step .micGranted).phase = true := by
  by_cases hp0 : w.browser.pendingMic = 0
  · have hstep : w.step .micGranted = w := by simp [VoiceMic.step, hp0]
    rw [hstep]
    exact ⟨h, cycleStep_self _⟩
  · unfold VoiceMic.Inv at h ⊢
    rcases h with ⟨hrec, hph, hpm, hd, hs⟩ | ⟨_, _, hpm, _⟩ | ⟨_, _, hpm, _⟩ | ⟨_, _, hpm, _⟩
    · have hstep : w.step .micGranted
          = VoiceMic.startRecordingResume { w with browser := w.browser.settleMic } true := by
        simp [VoiceMic.step, hp0]
      rw [hstep]
      refine ⟨Or.inr (Or.inl ⟨?_, ?_, ?_, ?_, w.browser.sessions, ?_, hd, ?_⟩), ?_⟩
      · simp [VoiceMic.startRecordingResume, VoiceMic.updateUI]
      · simp [VoiceMic.startRecordingResume, VoiceMic.updateUI, VoiceMic.phase]
      · simp [VoiceMic.startRecordingResume, VoiceMic.updateUI, Browser.recorderStart,
          Browser.newRecorder, Browser.settleMic]
        omega
      · simpa [VoiceMic.startRecordingResume, VoiceMic.updateUI, Browser.recorderStart,
          Browser.newRecorder, Browser.settleMic] using hs
      · simp [VoiceMic.startRecordingResume, VoiceMic.updateUI, Browser.recorderStart,
          Browser.newRecorder, Browser.settleMic, updateAt_concat]
      · simp [VoiceMic.startRecordingResume, VoiceMic.updateUI, Browser.settleMic]
      · rw [hph]
        simp [VoiceMic.startRecordingResume, VoiceMic.updateUI, VoiceMic.phase, cycleStep,
          Phase.next]
    · exact absurd hpm hp0
    · exact absurd hpm hp0
    · exact absurd hpm hp0

theorem VoiceMic.Inv.micDenied {w : VoiceMic} (h : w.Inv) :
    (w.step .micDenied).Inv ∧ cycleStep w.phase (w.step .micDenied).phase = true := by
  by_cases hp0 : w.browser.pendingMic = 0
  · have hstep : w.step .micDenied = w := by simp [VoiceMic.step, hp0]
    rw [hstep]
    exact ⟨h, cycleStep_self _⟩
  · unfold VoiceMic.Inv at h ⊢
    rcases h with ⟨hrec, hph, hpm, hd, hs⟩ | ⟨_, _, hpm, _⟩ | ⟨_, _, hpm, _⟩ | ⟨_, _, hpm, _⟩
    · have hstep : w.step .micDenied
          = VoiceMic.handleError { w with browser := w.browser.settleMic }
              "Microphone access denied" := by
        simp [VoiceMic.step, hp0, VoiceMic.startRecordingResume]
      rw [hstep]
      have hphase : (VoiceMic.handleError { w with browser := w.browser.settleMic }
          "Microphone access denied").phase = Phase.idle := by
        simp [VoiceMic.handleError, VoiceMic.updateUI, VoiceMic.phase, hrec]
      refine ⟨Or.inl ⟨?_, hphase, ?_, ?_, ?_⟩, ?_⟩
      · simpa [VoiceMic.handleError, VoiceMic.updateUI] using hrec
      · simp [VoiceMic.handleError, VoiceMic.updateUI, Browser.settleMic]
        omega
      · simpa [VoiceMic.handleError, VoiceMic.updateUI, Browser.settleMic] using hd
      · simpa [VoiceMic.handleError, VoiceMic.updateUI, Browser.settleMic] using hs
      · rw [hphase, hph]
        exact cycleStep_self _
    · exact absurd hpm hp0
    · exact absurd hpm hp0
    · exact absurd hpm hp0

theorem VoiceMic.Inv.dataavailable {w : VoiceMic} (h : w.Inv) (k : Nat) (data : Blob) :
    (w.step (.dataavailable k data)).Inv
    ∧ cycleStep w.phase (w.step (.dataavailable k data)).phase = true := by
  have key : (w.step (.dataavailable k data)).isRecording = w.isRecording
      ∧ (w.step (.dataavailable k data)).phase = w.phase
      ∧ (w.step (.dataavailable k data)).mediaRecorder = w.mediaRecorder
      ∧ (w.step (.dataavailable k data)).browser = w.browser := by
    simp only [VoiceMic.step]
    split
    · split
      · exact ⟨rfl, rfl, rfl, rfl⟩
      · exact ⟨rfl, rfl, rfl, rfl⟩
    · exact ⟨rfl, rfl, rfl, rfl⟩
  unfold VoiceMic.Inv at h ⊢
  rw [key.1, key.2.1, key.2.2.1, key.2.2.2]
  exact ⟨h, cycleStep_self _⟩

theorem VoiceMic.Inv.stop {w : VoiceMic} (h : w.Inv) (k : Nat) :
    (w.step (.stop k)).Inv ∧ cycleStep w.phase (w.step (.stop k)).phase = true := by
  cases hk : w.browser.sessions[k]? with
  | none =>
    have hstep : w.step (.stop k) = w := by simp [VoiceMic.step, hk]
    rw [hstep]
    exact ⟨h, cycleStep_self _⟩
  | some s =>
    by_cases hst : s.state = RecState.stopping
    · have hstep : w.step (.stop k)
          = VoiceMic.onstop { w with browser := w.browser.stopDelivered k } k := by
        simp [VoiceMic.step, hk, hst]
      have hphase : (VoiceMic.onstop { w with browser := w.browser.stopDelivered k } k).phase
          = w.phase := rfl
      rw [hstep, hphase]
      refine ⟨?_, cycleStep_self _⟩
      unfold VoiceMic.Inv at h ⊢
      rw [hphase]
      rcases h with ⟨hrec, hph, hpm, hd, hs⟩ | ⟨hrec, hph, hpm, hs, old, hso, hd, hm⟩
        | ⟨hrec, hph, hpm, hs, old, hso, hd⟩ | ⟨hrec, hph, hpm, hd, oldf, req, hf, hs⟩
      · have := hd s (List.getElem?_mem hk)
        rw [this] at hst
        exact absurd hst (by decide)
      · rw [hso] at hk
        rcases getElem?_concat_some hk with ⟨_, h2⟩ | h2
        · rw [h2] at hst
          exact absurd hst (by decide)
        · rw [hd s h2] at hst
          exact absurd hst (by decide)
      · rw [hso] at hk
        rcases getElem?_concat_some hk with ⟨h1, _⟩ | h2
        · subst h1
          refine Or.inr (Or.inr (Or.inr ⟨hrec, hph, ?_, ?_, w.browser.fetches,
            Request.mk (w.apiUrl ++ "/voice/query") "POST"
              [FormEntry.mk "audio" (Blob.new w.audioChunks "audio/webm") "recording.webm"],
            ?_, hs⟩))
          · simpa [VoiceMic.onstop, VoiceMic.sendAudio, Browser.stopTracks, Browser.fetch,
              Browser.assemble, Browser.stopDelivered] using hpm
          · have : (VoiceMic.onstop { w with browser := w.browser.stopDelivered old.length }
                old.length).browser.sessions
                = old ++ [{ live := false, state := .inactive }] := by
              simp [VoiceMic.onstop, VoiceMic.sendAudio, Browser.stopTracks, Browser.fetch,
                Browser.assemble, Browser.stopDelivered, hso, updateAt_concat]
            rw [this]
            exact hd.concat_dead
          · simp [VoiceMic.onstop, VoiceMic.sendAudio, Browser.stopTracks, Browser.fetch,
              Browser.assemble, Browser.stopDelivered]
        · rw [hd s h2] at hst
          exact absurd hst (by decide)
      · have := hd s (List.getElem?_mem hk)
        rw [this] at hst
        exact absurd hst (by decide)
    · have hstep : w.step (.stop k) = w := by simp [VoiceMic.step, hk, hst]
      rw [hstep]
      exact ⟨h, cycleStep_self _⟩

theorem VoiceMic.Inv.fetchSettled {w : VoiceMic} (h : w.Inv) (i : Nat) (o : FetchOutcome) :
    (w.step (.fetchSettled i o)).Inv
    ∧ cycleStep w.phase (w.step (.fetchSettled i o)).phase = true := by
  cases hi : w.browser.fetches[i]? with
  | none =>
    have hstep : w.step (.fetchSettled i o) = w := by simp [VoiceMic.step, hi]
    rw [hstep]
    exact ⟨h, cycleStep_self _⟩
  | some f =>
    cases hp : f.pending with
    | false =>
      have hstep : w.step (.fetchSettled i o) = w := by simp [VoiceMic.step, hi, hp]
      rw [hstep]
      exact ⟨h, cycleStep_self _⟩
    | true =>
      unfold VoiceMic.Inv at h ⊢
      rcases h with ⟨hrec, hph, hpm, hd, hs⟩ | ⟨hrec, hph, hpm, hs, old, hso, hd, hm⟩
        | ⟨hrec, hph, hpm, hs, old, hso, hd⟩ | ⟨hrec, hph, hpm, hd, oldf, req, hf, hs⟩
      · have := hs f (List.getElem?_mem hi)
        rw [this] at hp
        exact absurd hp (by decide)
      · have := hs f (List.getElem?_mem hi)
        rw [this] at hp
        exact absurd hp (by decide)
      · have := hs f (List.getElem?_mem hi)
        rw [this] at hp
        exact absurd hp (by decide)
      · rw [hf] at hi
        rcases getElem?_concat_some hi with ⟨h1, _⟩ | h2
        · subst h1
          have hfs : (w.browser.settleFetch oldf.length).fetches
              = oldf ++ [{ request := req, pending := false }] := by
            simp [Browser.settleFetch, hf, updateAt_concat]
          have hfi : w.browser.fetches[oldf.length]? = some f := by rw [hf]; exact hi
          cases hT : VoiceMic.sendAudioTry o with
          | error m =>
            have hstep : w.step (.fetchSettled oldf.length o)
                = VoiceMic.handleError
                    { w with browser := w.browser.settleFetch oldf.length } m := by
              simp [VoiceMic.step, hfi, hp, VoiceMic.sendAudioResume, hT]
            rw [hstep]
            have hphase : (VoiceMic.handleError
                { w with browser := w.browser.settleFetch oldf.length } m).phase
                = Phase.idle := by
              simp [VoiceMic.handleError, VoiceMic.updateUI, VoiceMic.phase, hrec,
                error_text_ne_processing]
            refine ⟨Or.inl ⟨?_, hphase, ?_, ?_, ?_⟩, ?_⟩
            · simpa [VoiceMic.handleError, VoiceMic.updateUI] using hrec
            · simp [VoiceMic.handleError, VoiceMic.updateUI, Browser.settleFetch, hpm]
            · simpa [VoiceMic.handleError, VoiceMic.updateUI, Browser.settleFetch] using hd
            · have : (VoiceMic.handleError
                  { w with browser := w.browser.settleFetch oldf.length } m).browser.fetches
                  = oldf ++ [{ request := req, pending := false }] := by
                simpa [VoiceMic.handleError, VoiceMic.updateUI] using hfs
              rw [this]
              exact hs.concat_settled req
            · rw [hphase, hph]
              simp [cycleStep, Phase.next]
          | ok data =>
            have hstep : w.step (.fetchSettled oldf.length o)
                = VoiceMic.handleResponse
                    { w with browser := w.browser.settleFetch oldf.length } data := by
              simp [VoiceMic.step, hfi, hp, VoiceMic.sendAudioResume, hT]
            rw [hstep]
            have hphase : (VoiceMic.handleResponse
                { w with browser := w.browser.settleFetch oldf.length } data).phase
                = Phase.idle := by
              simp [VoiceMic.handleResponse, VoiceMic.updateUI, VoiceMic.phase, hrec]
            refine ⟨Or.inl ⟨?_, hphase, ?_, ?_, ?_⟩, ?_⟩
            · simpa [VoiceMic.handleResponse, VoiceMic.updateUI] using hrec
            · simp [VoiceMic.handleResponse, VoiceMic.updateUI, Browser.settleFetch, hpm]
            · simpa [VoiceMic.handleResponse, VoiceMic.updateUI, Browser.settleFetch] using hd
            · have : (VoiceMic.handleResponse
                  { w with browser := w.browser.settleFetch oldf.length } data).browser.fetches
                  = oldf ++ [{ request := req, pending := false }] := by
                simpa [VoiceMic.handleResponse, VoiceMic.updateUI] using hfs
              rw [this]
              exact hs.concat_settled req
            · rw [hphase, hph]
              simp [cycleStep, Phase.next]
        · rw [hs f h2] at hp
          exact absurd hp (by decide)

theorem VoiceMic.Inv.step_inv {w : VoiceMic} (h : w.Inv) (ev : Event)
    (hc : (!ev.isClick || w.clickAllowed) = true) :
    (w.step ev).Inv ∧ cycleStep w.phase (w.step ev).phase = true := by
  cases ev with
  | click => exact h.click (by simpa [Event.isClick] using hc)
  | micGranted => exact h.micGranted
  | micDenied => exact h.micDenied
  | dataavailable k data => exact h.dataavailable k data
  | stop k => exact h.stop k
  | fetchSettled i o => exact h.fetchSettled i o

theorem VoiceMic.Inv.alternates_of_disciplined {w : VoiceMic} (h : w.Inv) (es : List Event)
    (hd : w.disciplined es = true) : w.alternates es = true := by
  induction es generalizing w with
  | nil => rfl
  | cons ev es ih =>
    simp only [VoiceMic.disciplined, Bool.and_eq_true] at hd
    obtain ⟨hinv, hcyc⟩ := h.step_inv ev hd.1
    simp only [VoiceMic.alternates, Bool.and_eq_true, decide_eq_true_eq]
    exact ⟨⟨hcyc, EngineInv.liveStreams_le hinv⟩, ih hinv hd.2⟩

theorem Sim.disciplined_eq {r : VoiceMicReact} {e : VoiceMic} (h : Sim r e) (es : List Event) :
    r.disciplined es = e.disciplined es := by
  induction es generalizing r e with
  | nil => rfl
  | cons ev es ih =>
    have hc : r.clickAllowed = e.clickAllowed := by
      obtain ⟨h1, _, _, _, h5, h7⟩ := h
      simp [VoiceMicReact.clickAllowed, VoiceMic.clickAllowed, h1, h5, h7]
    simp only [VoiceMicReact.disciplined, VoiceMic.disciplined, hc, ih (h.step_preserved ev)]

theorem Sim.alternates_eq {r : VoiceMicReact} {e : VoiceMic} (h : Sim r e) (es : List Event) :
    r.alternates es = e.alternates es := by
  induction es generalizing r e with
  | nil => rfl
  | cons ev es ih =>
    have h0 := h.2.2.2.2.2
    obtain ⟨_, _, _, _, h5, h7⟩ := h.step_preserved ev
    simp only [VoiceMicReact.alternates, VoiceMic.alternates, h0, h5, h7, ih (h.step_preserved ev)]

theorem VoiceMic.inv_of_fresh (w : VoiceMic) (hrec : w.isRecording = false)
    (hst : w.statusText = "") (hb : w.browser = Browser.fresh) : w.Inv := by
  refine Or.inl ⟨hrec, ?_, ?_, ?_, ?_⟩
  · simp [VoiceMic.phase, hrec, hst]
  · simp [hb, Browser.fresh]
  · intro s hs
    simp [hb, Browser.fresh] at hs
  · intro f hf
    simp [hb, Browser.fresh] at hf

/-- C4, amended: for either packaging, starting from the freshly created widget
(the component with any props, the element with any `api` attribute), and
for every sequence of clicks, microphone grants and denials, data fragments, `stop`
events and transport completions in which every click arrives while the widget is
recording or while it is Idle with no microphone request outstanding (no click while a
microphone request is unanswered, none while Processing): every event leaves the state
where it is or moves it one step along Idle, Recording, Processing, Idle, and after
every event at most one acquired capture stream is unreleased. -/
theorem allowed_clicks_alternate (props : Props) (api : Option String) (es : List Event) :
    ((VoiceMicReact.mount props Browser.fresh).disciplined es = true →
      (VoiceMicReact.mount props Browser.fresh).alternates es = true)
    ∧ ((VoiceMic.create api Browser.fresh).disciplined es = true →
      (VoiceMic.create api Browser.fresh).alternates es = true) := by
  constructor
  · intro hd
    have hsim : Sim (VoiceMicReact.mount props Browser.fresh)
        { VoiceMic.create none Browser.fresh with
          apiUrl := (VoiceMicReact.mount props Browser.fresh).apiUrl } := by
      refine ⟨rfl, rfl, rfl, rfl, rfl, ?_⟩
      simp [VoiceMicReact.phase, VoiceMic.phase, VoiceMicReact.mount, VoiceMic.create]
    rw [hsim.alternates_eq]
    rw [hsim.disciplined_eq] at hd
    exact (VoiceMic.inv_of_fresh _ rfl rfl rfl).alternates_of_disciplined es hd
  · intro hd
    exact (VoiceMic.inv_of_fresh _ rfl rfl rfl).alternates_of_disciplined es hd

theorem allowed_clicks_alternate_witness :
    ((VoiceMicReact.mount {} Browser.fresh).disciplined
        [.click, .micGranted, .dataavailable 0 ⟨[1], "audio/webm"⟩, .click, .stop 0,
         .fetchSettled 0 (.rejected "network down"), .click, .micDenied] = true
      ∧ (VoiceMic.create none Browser.fresh).disciplined
        [.click, .micGranted, .dataavailable 0 ⟨[1], "audio/webm"⟩, .click, .stop 0,
         .fetchSettled 0 (.rejected "network down"), .click, .micDenied] = true)
    ∧ (VoiceMicReact.mount {} Browser.fresh).alternates
        [.click, .micGranted, .dataavailable 0 ⟨[1], "audio/webm"⟩, .click, .stop 0,
         .fetchSettled 0 (.rejected "network down"), .click, .micDenied] = true
    ∧ (VoiceMic.create none Browser.fresh).alternates
        [.click, .micGranted, .dataavailable 0 ⟨[1], "audio/webm"⟩, .click, .stop 0,
         .fetchSettled 0 (.rejected "network down"), .click, .micDenied] = true :=
  ⟨⟨by decide, by decide⟩,
   (allowed_clicks_alternate {} none
      [.click, .micGranted, .dataavailable 0 ⟨[1], "audio/webm"⟩, .click, .stop 0,
       .fetchSettled 0 (.rejected "network down"), .click, .micDenied]).1 (by decide),
   (allowed_clicks_alternate {} none
      [.click, .micGranted, .dataavailable 0 ⟨[1], "audio/webm"⟩, .click, .stop 0,
       .fetchSettled 0 (.rejected "network down"), .click, .micDenied]).2 (by decide)⟩

end VoiceAgent
